import Mathlib

/-!
Verification development for the slide-content model of models/content.py
(presentation content management: polymorphic elements, slides with a
versioned mutation history, image filter pipeline, serialization).

Conventions of the shallow embedding:
- Python float-valued fields are modeled as rationals.
- datetime instants are modeled as abstract ticks (a natural number);
  datetime.isoformat / datetime.fromisoformat are modeled as an injective
  string encoding together with a partial decoder that fails on every string
  outside the image of the encoder, mirroring the stdlib guarantee that
  fromisoformat inverts isoformat and raises on malformed input.
- Python dicts keyed by strings are modeled as insertion-ordered association
  lists with Python dict update semantics (assignment to an existing key
  replaces the value in place, assignment to a fresh key appends).
- Nondeterministic inputs (uuid.uuid4(), datetime.now()) and the file system
  (os.path.exists) are passed in explicitly.
-/

namespace Content

/-- Model of a datetime instant as an abstract tick count. -/
abbrev DateTime := Nat

/-- Model of datetime.isoformat: an injective rendering of an instant as a
string (the concrete ISO-8601 digits are abstracted to a unary encoding). -/
def isoformat (t : DateTime) : String :=
  String.mk (List.replicate t 'T')

/-- Model of datetime.fromisoformat: decodes exactly the strings in the image
of isoformat and fails (raises ValueError in Python) on every other string. -/
def fromisoformat (s : String) : Option DateTime :=
  if s.data.all (fun c => c == 'T') then some s.data.length else none

theorem fromisoformat_isoformat (t : DateTime) :
    fromisoformat (isoformat t) = some t := by
  have h : (List.replicate t 'T').all (fun c => c == 'T') = true := by
    simp [List.all_eq_true]
  simp [fromisoformat, isoformat, h]

/-- Model of the Python int() conversion applied to a float value, i.e.
truncation of the (exact) rational value toward zero. -/
def pyInt (q : ℚ) : ℤ :=
  q.num.tdiv (q.den : ℤ)

theorem pyInt_intCast (n : ℤ) : pyInt (n : ℚ) = n := by
  simp [pyInt, Rat.num_intCast, Rat.den_intCast]

/-- The Python slice l[-n:]: the suffix of the n most recent entries. -/
def lastN (n : Nat) (l : List α) : List α :=
  (l.reverse.take n).reverse

theorem length_lastN_le (n : Nat) (l : List α) : (lastN n l).length ≤ n := by
  simp [lastN]

theorem lastN_of_length_le {n : Nat} {l : List α} (h : l.length ≤ n) :
    lastN n l = l := by
  simp [lastN, List.take_of_length_le, h, List.length_reverse]

theorem lastN_lastN_append (n : Nat) (l m : List α) :
    lastN n (lastN n l ++ m) = lastN n (l ++ m) := by
  unfold lastN
  rw [List.reverse_append, List.reverse_reverse, List.reverse_append]
  rw [List.take_append_eq_append_take, List.take_append_eq_append_take,
    List.take_take, Nat.min_eq_left (Nat.sub_le n _)]

/-- Python dict assignment d[k] = v: replaces the value in place when the key
exists (keeping its position), appends a new entry otherwise. -/
def dictSet (d : List (String × α)) (k : String) (v : α) : List (String × α) :=
  if d.any (fun p => p.1 == k) then
    d.map (fun p => if p.1 == k then (k, v) else p)
  else d ++ [(k, v)]

/-- Python key-membership test k in d. -/
def dictContains (d : List (String × α)) (k : String) : Bool :=
  d.any (fun p => p.1 == k)

/-- Python d.get(k): the value stored at k, if any. -/
def dictGet (d : List (String × α)) (k : String) : Option α :=
  (d.find? (fun p => p.1 == k)).map (fun p => p.2)

/-- Python list(d.keys()), in insertion order. -/
def dictKeys (d : List (String × α)) : List String :=
  d.map (fun p => p.1)

/-- Python del d[k]. -/
def dictDel (d : List (String × α)) (k : String) : List (String × α) :=
  d.filter (fun p => p.1 != k)

/-! ### Element styles and animation (models/content.py, ElementStyle and
ContentElement.__init__) -/

/-- Dataclass ElementStyle with its field defaults. -/
structure ElementStyle where
  color : String := "#000000"
  background_color : String := "transparent"
  border_color : String := "transparent"
  border_width : Int := 0
  opacity : ℚ := 1
  rotation : ℚ := 0
  shadow : Bool := false
  shadow_color : String := "#000000"
  shadow_blur : Int := 5
  shadow_offset_x : Int := 2
  shadow_offset_y : Int := 2
deriving Repr, DecidableEq

/-- The animation dict of ContentElement.__init__. -/
structure Animation where
  entrance : String := "none"
  exit : String := "none"
  duration : Int := 1000
  delay : Int := 0
deriving Repr, DecidableEq

/-- Base state shared by every element variant (ContentElement.__init__). -/
structure ContentElement where
  id : String
  type : String
  x : ℚ
  y : ℚ
  width : ℚ
  height : ℚ
  z_index : Int
  visible : Bool
  locked : Bool
  created_at : DateTime
  modified_at : DateTime
  style : ElementStyle
  animation : Animation
deriving Repr, DecidableEq

/-- ContentElement.__init__ with its defaults; element_id is the uuid4 value
and now the construction instant, both passed explicitly. -/
def ContentElement.new (element_id : String) (element_type : String)
    (x y width height : ℚ) (now : DateTime) : ContentElement where
  id := element_id
  type := element_type
  x := x
  y := y
  width := width
  height := height
  z_index := 0
  visible := true
  locked := false
  created_at := now
  modified_at := now
  style := {}
  animation := {}

/-- The dictionary produced by ContentElement.to_dict: the same fields with
both timestamps rendered through isoformat (the style and animation
sub-dictionaries carry their fields verbatim and are modeled by the same
structures). -/
structure BaseDict where
  id : String
  type : String
  x : ℚ
  y : ℚ
  width : ℚ
  height : ℚ
  z_index : Int
  visible : Bool
  locked : Bool
  created_at : String
  modified_at : String
  style : ElementStyle
  animation : Animation
deriving Repr, DecidableEq

/-- ContentElement.to_dict. -/
def ContentElement.to_dict (e : ContentElement) : BaseDict where
  id := e.id
  type := e.type
  x := e.x
  y := e.y
  width := e.width
  height := e.height
  z_index := e.z_index
  visible := e.visible
  locked := e.locked
  created_at := isoformat e.created_at
  modified_at := isoformat e.modified_at
  style := e.style
  animation := e.animation

/-- ContentElement.from_base_dict: restores every base field from the stored
dictionary; the two timestamps are parsed inside one try block, and when
either fails to parse both fall back to the current time (now). -/
def ContentElement.from_base_dict (data : BaseDict) (now : DateTime) :
    ContentElement :=
  let times :=
    match fromisoformat data.created_at, fromisoformat data.modified_at with
    | some c, some m => (c, m)
    | _, _ => (now, now)
  { id := data.id
    type := data.type
    x := data.x
    y := data.y
    width := data.width
    height := data.height
    z_index := data.z_index
    visible := data.visible
    locked := data.locked
    created_at := times.1
    modified_at := times.2
    style := data.style
    animation := data.animation }

theorem from_base_dict_to_dict (e : ContentElement) (now : DateTime) :
    ContentElement.from_base_dict (ContentElement.to_dict e) now = e := by
  cases e
  simp [ContentElement.from_base_dict, ContentElement.to_dict,
    fromisoformat_isoformat]

/-! ### Text elements (TextElement) -/

/-- The TextElement variant: the shared base state plus the text-specific
attributes set in TextElement.__init__. -/
structure TextElement where
  base : ContentElement
  text : String
  font_family : String
  font_size : Int
  font_weight : String
  font_style : String
  text_align : String
  text_decoration : String
  line_height : ℚ
  letter_spacing : Int
  word_spacing : Int
  max_lines : Option Int
  text_transform : String
  vertical_align : String
  white_space : String
  word_wrap : Bool
  text_overflow : String
deriving Repr, DecidableEq

/-- TextElement.__init__ with its defaults. -/
def TextElement.new (text font_family : String) (font_size : Int)
    (element_id : String) (x y width height : ℚ) (now : DateTime) :
    TextElement where
  base := ContentElement.new element_id "text" x y width height now
  text := text
  font_family := font_family
  font_size := font_size
  font_weight := "normal"
  font_style := "normal"
  text_align := "left"
  text_decoration := "none"
  line_height := 1.2
  letter_spacing := 0
  word_spacing := 0
  max_lines := none
  text_transform := "none"
  vertical_align := "top"
  white_space := "normal"
  word_wrap := true
  text_overflow := "ellipsis"

/-- Python str.upper (character-wise, at the ASCII level of the model). -/
def pyUpper (s : String) : String :=
  String.mk (s.data.map Char.toUpper)

/-- Python str.lower (character-wise, at the ASCII level of the model). -/
def pyLower (s : String) : String :=
  String.mk (s.data.map Char.toLower)

/-- Python str.capitalize: first character uppercased, the rest lowercased. -/
def pyCapitalize (s : String) : String :=
  match s.data with
  | [] => ""
  | c :: cs => String.mk (c.toUpper :: cs.map Char.toLower)

/-- TextElement.get_formatted_text. -/
def TextElement.get_formatted_text (e : TextElement) : String :=
  if e.text_transform == "uppercase" then pyUpper e.text
  else if e.text_transform == "lowercase" then pyLower e.text
  else if e.text_transform == "capitalize" then pyCapitalize e.text
  else e.text

/-- The dictionary produced by TextElement.to_dict (base fields plus the
text-specific fields). -/
structure TextDict where
  base : BaseDict
  text : String
  font_family : String
  font_size : Int
  font_weight : String
  font_style : String
  text_align : String
  text_decoration : String
  line_height : ℚ
  letter_spacing : Int
  word_spacing : Int
  max_lines : Option Int
  text_transform : String
  vertical_align : String
  white_space : String
  word_wrap : Bool
  text_overflow : String
deriving Repr, DecidableEq

/-- TextElement.to_dict. -/
def TextElement.to_dict (e : TextElement) : TextDict where
  base := e.base.to_dict
  text := e.text
  font_family := e.font_family
  font_size := e.font_size
  font_weight := e.font_weight
  font_style := e.font_style
  text_align := e.text_align
  text_decoration := e.text_decoration
  line_height := e.line_height
  letter_spacing := e.letter_spacing
  word_spacing := e.word_spacing
  max_lines := e.max_lines
  text_transform := e.text_transform
  vertical_align := e.vertical_align
  white_space := e.white_space
  word_wrap := e.word_wrap
  text_overflow := e.text_overflow

/-- TextElement.from_dict: the source first builds an element from the
principal constructor arguments, then overwrites every base attribute with
the result of ContentElement.from_base_dict, then restores each text-specific
attribute from the dictionary; the net state is modeled directly. -/
def TextElement.from_dict (data : TextDict) (now : DateTime) : TextElement where
  base := ContentElement.from_base_dict data.base now
  text := data.text
  font_family := data.font_family
  font_size := data.font_size
  font_weight := data.font_weight
  font_style := data.font_style
  text_align := data.text_align
  text_decoration := data.text_decoration
  line_height := data.line_height
  letter_spacing := data.letter_spacing
  word_spacing := data.word_spacing
  max_lines := data.max_lines
  text_transform := data.text_transform
  vertical_align := data.vertical_align
  white_space := data.white_space
  word_wrap := data.word_wrap
  text_overflow := data.text_overflow

/-! ### Image elements (ImageElement) -/

/-- The 8-parameter filter bank of ImageElement.__init__, with defaults. -/
structure FilterEffects where
  brightness : Int := 100
  contrast : Int := 100
  saturation : Int := 100
  hue : Int := 0
  blur : Int := 0
  grayscale : Int := 0
  sepia : Int := 0
  invert : Int := 0
deriving Repr, DecidableEq

/-- The percentage crop box of ImageElement.__init__. -/
structure CropBox where
  x : Int := 0
  y : Int := 0
  width : Int := 100
  height : Int := 100
deriving Repr, DecidableEq

/-- The cached image metadata of ImageElement.__init__. -/
structure ImageInfo where
  format : String := ""
  size : Int × Int := (0, 0)
  file_size : Int := 0
  color_mode : String := ""
  has_transparency : Bool := false
deriving Repr, DecidableEq

/-- The ImageElement variant. -/
structure ImageElement where
  base : ContentElement
  image_path : String
  original_path : String
  alt_text : String
  fit_mode : String
  image_quality : Int
  preserve_aspect_ratio : Bool
  filter_effects : FilterEffects
  crop : CropBox
  image_info : ImageInfo
deriving Repr, DecidableEq

/-- ImageElement.__init__ with its defaults (original_path starts equal to
image_path). -/
def ImageElement.new (image_path alt_text : String) (element_id : String)
    (x y width height : ℚ) (now : DateTime) : ImageElement where
  base := ContentElement.new element_id "image" x y width height now
  image_path := image_path
  original_path := image_path
  alt_text := alt_text
  fit_mode := "contain"
  image_quality := 100
  preserve_aspect_ratio := true
  filter_effects := {}
  crop := {}
  image_info := {}

/-- The dictionary produced by ImageElement.to_dict. -/
structure ImageDict where
  base : BaseDict
  image_path : String
  original_path : String
  alt_text : String
  fit_mode : String
  image_quality : Int
  preserve_aspect_ratio : Bool
  filter_effects : FilterEffects
  crop : CropBox
  image_info : ImageInfo
deriving Repr, DecidableEq

/-- ImageElement.to_dict. -/
def ImageElement.to_dict (e : ImageElement) : ImageDict where
  base := e.base.to_dict
  image_path := e.image_path
  original_path := e.original_path
  alt_text := e.alt_text
  fit_mode := e.fit_mode
  image_quality := e.image_quality
  preserve_aspect_ratio := e.preserve_aspect_ratio
  filter_effects := e.filter_effects
  crop := e.crop
  image_info := e.image_info

/-- ImageElement.from_dict (same shape as TextElement.from_dict). -/
def ImageElement.from_dict (data : ImageDict) (now : DateTime) :
    ImageElement where
  base := ContentElement.from_base_dict data.base now
  image_path := data.image_path
  original_path := data.original_path
  alt_text := data.alt_text
  fit_mode := data.fit_mode
  image_quality := data.image_quality
  preserve_aspect_ratio := data.preserve_aspect_ratio
  filter_effects := data.filter_effects
  crop := data.crop
  image_info := data.image_info

/-! ### Icon elements (IconElement) -/

/-- The IconElement variant. -/
structure IconElement where
  base : ContentElement
  icon_code : String
  icon_type : String
  icon_family : String
  icon_size : Int
  icon_color : String
  icon_library : String
  icon_variant : String
  custom_svg_path : String
  custom_image_path : String
deriving Repr, DecidableEq

/-- IconElement.__init__ with its defaults. -/
def IconElement.new (icon_code icon_type : String) (element_id : String)
    (x y width height : ℚ) (now : DateTime) : IconElement where
  base := ContentElement.new element_id "icon" x y width height now
  icon_code := icon_code
  icon_type := icon_type
  icon_family := "Arial"
  icon_size := 24
  icon_color := "#000000"
  icon_library := ""
  icon_variant := "regular"
  custom_svg_path := ""
  custom_image_path := ""

/-- IconElement.get_display_value. -/
def IconElement.get_display_value (e : IconElement) : String :=
  if e.icon_type == "unicode" || e.icon_type == "emoji" then e.icon_code
  else if e.icon_type == "fontawesome" then "fa-" ++ e.icon_code
  else if e.icon_type == "material" then e.icon_code
  else e.icon_code

/-- The dictionary produced by IconElement.to_dict. -/
structure IconDict where
  base : BaseDict
  icon_code : String
  icon_type : String
  icon_family : String
  icon_size : Int
  icon_color : String
  icon_library : String
  icon_variant : String
  custom_svg_path : String
  custom_image_path : String
deriving Repr, DecidableEq

/-- IconElement.to_dict. -/
def IconElement.to_dict (e : IconElement) : IconDict where
  base := e.base.to_dict
  icon_code := e.icon_code
  icon_type := e.icon_type
  icon_family := e.icon_family
  icon_size := e.icon_size
  icon_color := e.icon_color
  icon_library := e.icon_library
  icon_variant := e.icon_variant
  custom_svg_path := e.custom_svg_path
  custom_image_path := e.custom_image_path

/-- IconElement.from_dict. -/
def IconElement.from_dict (data : IconDict) (now : DateTime) : IconElement where
  base := ContentElement.from_base_dict data.base now
  icon_code := data.icon_code
  icon_type := data.icon_type
  icon_family := data.icon_family
  icon_size := data.icon_size
  icon_color := data.icon_color
  icon_library := data.icon_library
  icon_variant := data.icon_variant
  custom_svg_path := data.custom_svg_path
  custom_image_path := data.custom_image_path

/-! ### Symbol elements (SymbolElement) -/

/-- The SymbolElement variant. -/
structure SymbolElement where
  base : ContentElement
  symbol : String
  symbol_type : String
  symbol_size : Int
  symbol_unicode : String
  symbol_name : String
  symbol_category : String
  math_notation : String
  latex_code : String
deriving Repr, DecidableEq

/-- SymbolElement.__init__ with its defaults. -/
def SymbolElement.new (symbol symbol_type : String) (element_id : String)
    (x y width height : ℚ) (now : DateTime) : SymbolElement where
  base := ContentElement.new element_id "symbol" x y width height now
  symbol := symbol
  symbol_type := symbol_type
  symbol_size := 24
  symbol_unicode := ""
  symbol_name := ""
  symbol_category := ""
  math_notation := ""
  latex_code := ""

/-- Uppercase hexadecimal rendering zero-padded to at least four digits
(the Python format spec 04X). -/
def hex4 (n : Nat) : String :=
  let ds := (Nat.toDigits 16 n).map Char.toUpper
  String.mk (List.replicate (4 - ds.length) '0' ++ ds)

/-- The Unicode descriptor dictionary of SymbolElement.get_unicode_info. -/
structure UnicodeInfo where
  decimal : String
  hex : String
  html : String
  css : String
deriving Repr, DecidableEq

/-- SymbolElement.get_unicode_info: descriptors derived from the first code
point of the symbol; an empty symbol yields the empty dictionary (none). -/
def SymbolElement.get_unicode_info (e : SymbolElement) : Option UnicodeInfo :=
  match e.symbol.data with
  | [] => none
  | c :: _ =>
    let code := c.toNat
    some { decimal := toString code
           hex := "U+" ++ hex4 code
           html := "&#" ++ toString code ++ ";"
           css := "\\" ++ hex4 code }

/-- The dictionary produced by SymbolElement.to_dict; unicode_info is a
derived field that from_dict never reads back. -/
structure SymbolDict where
  base : BaseDict
  symbol : String
  symbol_type : String
  symbol_size : Int
  symbol_unicode : String
  symbol_name : String
  symbol_category : String
  math_notation : String
  latex_code : String
  unicode_info : Option UnicodeInfo
deriving Repr, DecidableEq

/-- SymbolElement.to_dict. -/
def SymbolElement.to_dict (e : SymbolElement) : SymbolDict where
  base := e.base.to_dict
  symbol := e.symbol
  symbol_type := e.symbol_type
  symbol_size := e.symbol_size
  symbol_unicode := e.symbol_unicode
  symbol_name := e.symbol_name
  symbol_category := e.symbol_category
  math_notation := e.math_notation
  latex_code := e.latex_code
  unicode_info := e.get_unicode_info

/-- SymbolElement.from_dict. -/
def SymbolElement.from_dict (data : SymbolDict) (now : DateTime) :
    SymbolElement where
  base := ContentElement.from_base_dict data.base now
  symbol := data.symbol
  symbol_type := data.symbol_type
  symbol_size := data.symbol_size
  symbol_unicode := data.symbol_unicode
  symbol_name := data.symbol_name
  symbol_category := data.symbol_category
  math_notation := data.math_notation
  latex_code := data.latex_code

/-! ### The polymorphic element and its serialized record -/

/-- An element stored in a slide: one of the four concrete variants. -/
inductive Element where
  | text (e : TextElement)
  | image (e : ImageElement)
  | icon (e : IconElement)
  | symbol (e : SymbolElement)
deriving Repr, DecidableEq

/-- A serialized element record as it appears inside a slide document: one of
the four variant dictionaries, or a record whose type discriminator is not one
of the four recognized strings (carried with its base payload). -/
inductive StoredElement where
  | text (d : TextDict)
  | image (d : ImageDict)
  | icon (d : IconDict)
  | symbol (d : SymbolDict)
  | unknown (etype : String) (d : BaseDict)
deriving Repr, DecidableEq

/-- Serialization dispatched through the concrete class (element.to_dict). -/
def Element.to_dict : Element → StoredElement
  | .text e => .text e.to_dict
  | .image e => .image e.to_dict
  | .icon e => .icon e.to_dict
  | .symbol e => .symbol e.to_dict

/-- The shared base state of an element. -/
def Element.base : Element → ContentElement
  | .text e => e.base
  | .image e => e.base
  | .icon e => e.base
  | .symbol e => e.base

/-- The element.type attribute (a plain mutable string field in Python). -/
def Element.etype (e : Element) : String :=
  e.base.type

/-- The element.z_index attribute. -/
def Element.z_index (e : Element) : Int :=
  e.base.z_index

/-- Replace the shared base state of an element. -/
def Element.withBase : Element → ContentElement → Element
  | .text e, b => .text { e with base := b }
  | .image e, b => .image { e with base := b }
  | .icon e, b => .icon { e with base := b }
  | .symbol e, b => .symbol { e with base := b }

/-- Assignment element.z_index = v. -/
def Element.setZIndex (e : Element) (v : Int) : Element :=
  e.withBase { e.base with z_index := v }

/-- Assignment element.modified_at = datetime.now(). -/
def Element.setModified (e : Element) (now : DateTime) : Element :=
  e.withBase { e.base with modified_at := now }

/-! ### Reflective keyword updates (SlideData.update_element) -/

/-- A value assigned through the reflective keyword-update mechanism of
SlideData.update_element (setattr on attribute names). Only assignments whose
value fits the attribute's (dynamically conventional) type are representable
in this typed model; the object-valued attributes style, animation,
filter_effects, crop and image_info are whole-object assignments outside the
value grammar and are modeled as leaving the attribute unchanged. -/
inductive AttrValue where
  | s (v : String)
  | i (v : Int)
  | q (v : ℚ)
  | b (v : Bool)
  | n (v : Nat)
  | oi (v : Option Int)
deriving Repr, DecidableEq

def AttrValue.asStr (v : AttrValue) (dflt : String) : String :=
  match v with
  | .s x => x
  | _ => dflt

def AttrValue.asInt (v : AttrValue) (dflt : Int) : Int :=
  match v with
  | .i x => x
  | _ => dflt

def AttrValue.asRat (v : AttrValue) (dflt : ℚ) : ℚ :=
  match v with
  | .q x => x
  | .i x => (x : ℚ)
  | _ => dflt

def AttrValue.asBool (v : AttrValue) (dflt : Bool) : Bool :=
  match v with
  | .b x => x
  | _ => dflt

def AttrValue.asNat (v : AttrValue) (dflt : Nat) : Nat :=
  match v with
  | .n x => x
  | _ => dflt

def AttrValue.asOptInt (v : AttrValue) (dflt : Option Int) : Option Int :=
  match v with
  | .oi x => x
  | .i x => some x
  | _ => dflt

/-- setattr on the attributes owned by ContentElement; an attribute name that
does not exist fails the hasattr guard in update_element and leaves the
element untouched, which coincides with returning the element unchanged. -/
def ContentElement.setattr (e : ContentElement) (k : String) (v : AttrValue) :
    ContentElement :=
  if k == "id" then { e with id := v.asStr e.id }
  else if k == "type" then { e with type := v.asStr e.type }
  else if k == "x" then { e with x := v.asRat e.x }
  else if k == "y" then { e with y := v.asRat e.y }
  else if k == "width" then { e with width := v.asRat e.width }
  else if k == "height" then { e with height := v.asRat e.height }
  else if k == "z_index" then { e with z_index := v.asInt e.z_index }
  else if k == "visible" then { e with visible := v.asBool e.visible }
  else if k == "locked" then { e with locked := v.asBool e.locked }
  else if k == "created_at" then { e with created_at := v.asNat e.created_at }
  else if k == "modified_at" then { e with modified_at := v.asNat e.modified_at }
  else e

/-- setattr on a TextElement (variant attributes first, otherwise the base). -/
def TextElement.setattr (e : TextElement) (k : String) (v : AttrValue) :
    TextElement :=
  if k == "text" then { e with text := v.asStr e.text }
  else if k == "font_family" then { e with font_family := v.asStr e.font_family }
  else if k == "font_size" then { e with font_size := v.asInt e.font_size }
  else if k == "font_weight" then { e with font_weight := v.asStr e.font_weight }
  else if k == "font_style" then { e with font_style := v.asStr e.font_style }
  else if k == "text_align" then { e with text_align := v.asStr e.text_align }
  else if k == "text_decoration" then
    { e with text_decoration := v.asStr e.text_decoration }
  else if k == "line_height" then { e with line_height := v.asRat e.line_height }
  else if k == "letter_spacing" then
    { e with letter_spacing := v.asInt e.letter_spacing }
  else if k == "word_spacing" then
    { e with word_spacing := v.asInt e.word_spacing }
  else if k == "max_lines" then { e with max_lines := v.asOptInt e.max_lines }
  else if k == "text_transform" then
    { e with text_transform := v.asStr e.text_transform }
  else if k == "vertical_align" then
    { e with vertical_align := v.asStr e.vertical_align }
  else if k == "white_space" then { e with white_space := v.asStr e.white_space }
  else if k == "word_wrap" then { e with word_wrap := v.asBool e.word_wrap }
  else if k == "text_overflow" then
    { e with text_overflow := v.asStr e.text_overflow }
  else { e with base := e.base.setattr k v }

/-- setattr on an ImageElement. -/
def ImageElement.setattr (e : ImageElement) (k : String) (v : AttrValue) :
    ImageElement :=
  if k == "image_path" then { e with image_path := v.asStr e.image_path }
  else if k == "original_path" then
    { e with original_path := v.asStr e.original_path }
  else if k == "alt_text" then { e with alt_text := v.asStr e.alt_text }
  else if k == "fit_mode" then { e with fit_mode := v.asStr e.fit_mode }
  else if k == "image_quality" then
    { e with image_quality := v.asInt e.image_quality }
  else if k == "preserve_aspect_ratio" then
    { e with preserve_aspect_ratio := v.asBool e.preserve_aspect_ratio }
  else { e with base := e.base.setattr k v }

/-- setattr on an IconElement. -/
def IconElement.setattr (e : IconElement) (k : String) (v : AttrValue) :
    IconElement :=
  if k == "icon_code" then { e with icon_code := v.asStr e.icon_code }
  else if k == "icon_type" then { e with icon_type := v.asStr e.icon_type }
  else if k == "icon_family" then { e with icon_family := v.asStr e.icon_family }
  else if k == "icon_size" then { e with icon_size := v.asInt e.icon_size }
  else if k == "icon_color" then { e with icon_color := v.asStr e.icon_color }
  else if k == "icon_library" then
    { e with icon_library := v.asStr e.icon_library }
  else if k == "icon_variant" then
    { e with icon_variant := v.asStr e.icon_variant }
  else if k == "custom_svg_path" then
    { e with custom_svg_path := v.asStr e.custom_svg_path }
  else if k == "custom_image_path" then
    { e with custom_image_path := v.asStr e.custom_image_path }
  else { e with base := e.base.setattr k v }

/-- setattr on a SymbolElement. -/
def SymbolElement.setattr (e : SymbolElement) (k : String) (v : AttrValue) :
    SymbolElement :=
  if k == "symbol" then { e with symbol := v.asStr e.symbol }
  else if k == "symbol_type" then { e with symbol_type := v.asStr e.symbol_type }
  else if k == "symbol_size" then { e with symbol_size := v.asInt e.symbol_size }
  else if k == "symbol_unicode" then
    { e with symbol_unicode := v.asStr e.symbol_unicode }
  else if k == "symbol_name" then { e with symbol_name := v.asStr e.symbol_name }
  else if k == "symbol_category" then
    { e with symbol_category := v.asStr e.symbol_category }
  else if k == "math_notation" then
    { e with math_notation := v.asStr e.math_notation }
  else if k == "latex_code" then { e with latex_code := v.asStr e.latex_code }
  else { e with base := e.base.setattr k v }

/-- setattr dispatched on the runtime class of the element. -/
def Element.setattr : Element → String → AttrValue → Element
  | .text e, k, v => .text (e.setattr k v)
  | .image e, k, v => .image (e.setattr k v)
  | .icon e, k, v => .icon (e.setattr k v)
  | .symbol e, k, v => .symbol (e.setattr k v)

/-! ### The image filter pipeline (ImageElement.apply_filters) -/

/-- One RGB pixel with integer channels. -/
abbrev Pixel := ℤ × ℤ × ℤ

/-- A raster image as rows of RGB pixels. -/
abbrev Raster := List (List Pixel)

/-- The per-pixel body of ImageElement._apply_sepia: the fixed
luminance-weighted matrix transform, truncated to an integer and clamped to
255 per channel, then linearly interpolated with the original pixel by
intensity / 100 (the Python float coefficients 0.393 etc. are modeled by the
exact rationals they denote). -/
def sepiaPixel (intensity : ℤ) (p : Pixel) : Pixel :=
  let r := p.1
  let g := p.2.1
  let b := p.2.2
  let tr := pyInt (0.393 * (r : ℚ) + 0.769 * (g : ℚ) + 0.189 * (b : ℚ))
  let tg := pyInt (0.349 * (r : ℚ) + 0.686 * (g : ℚ) + 0.168 * (b : ℚ))
  let tb := pyInt (0.272 * (r : ℚ) + 0.534 * (g : ℚ) + 0.131 * (b : ℚ))
  let tr := min 255 tr
  let tg := min 255 tg
  let tb := min 255 tb
  let mr := pyInt ((r : ℚ) + ((tr : ℚ) - (r : ℚ)) * (intensity : ℚ) / 100)
  let mg := pyInt ((g : ℚ) + ((tg : ℚ) - (g : ℚ)) * (intensity : ℚ) / 100)
  let mb := pyInt ((b : ℚ) + ((tb : ℚ) - (b : ℚ)) * (intensity : ℚ) / 100)
  (mr, mg, mb)

/-- ImageElement._apply_sepia: the pixel loop over the whole raster. -/
def applySepia (img : Raster) (intensity : ℤ) : Raster :=
  img.map (fun row => row.map (sepiaPixel intensity))

/-- Semantics of the external PIL raster operations used by apply_filters
(ImageEnhance.Brightness / Contrast / Color, ImageFilter.GaussianBlur, the
grayscale conversion convert L followed by convert RGB, and Image.blend).
That library code lives outside this repository, so the operations are kept
as parameters of the pipeline. -/
structure PILOps where
  brightness : Raster → ℚ → Raster
  contrast : Raster → ℚ → Raster
  color : Raster → ℚ → Raster
  gaussianBlur : Raster → Int → Raster
  grayscaleOf : Raster → Raster
  blend : Raster → Raster → ℚ → Raster

/-- ImageElement.apply_filters: skips each stage at its neutral parameter
value, otherwise applies the stages in the fixed order brightness, contrast,
saturation, blur, sepia, grayscale. A missing source file fails the pipeline
before any processing. The write of the processed file is modeled by
returning the processed raster; the file system of the run is the fs
predicate and loadImage gives the decoded source raster. -/
def ImageElement.apply_filters (ops : PILOps) (fs : String → Bool)
    (loadImage : String → Raster) (e : ImageElement) : Bool × Option Raster :=
  if fs e.image_path then
    let img := loadImage e.image_path
    let img :=
      if e.filter_effects.brightness != 100 then
        ops.brightness img ((e.filter_effects.brightness : ℚ) / 100)
      else img
    let img :=
      if e.filter_effects.contrast != 100 then
        ops.contrast img ((e.filter_effects.contrast : ℚ) / 100)
      else img
    let img :=
      if e.filter_effects.saturation != 100 then
        ops.color img ((e.filter_effects.saturation : ℚ) / 100)
      else img
    let img :=
      if e.filter_effects.blur > 0 then
        ops.gaussianBlur img e.filter_effects.blur
      else img
    let img :=
      if e.filter_effects.sepia > 0 then applySepia img e.filter_effects.sepia
      else img
    let img :=
      if e.filter_effects.grayscale > 0 then
        ops.blend img (ops.grayscaleOf img)
          ((e.filter_effects.grayscale : ℚ) / 100)
      else img
    (true, some img)
  else (false, none)

/-! ### Path helpers (os.path fragments used by the slide methods) -/

/-- The characters of a path after the final directory separator
(os.path.basename). -/
def basenameChars (p : String) : List Char :=
  (p.data.reverse.takeWhile (fun c => c != '/')).reverse

/-- os.path.basename. -/
def pyBasename (p : String) : String :=
  String.mk (basenameChars p)

/-- The extension part of os.path.splitext: the basename is split at its last
dot, except that a leading run of dots never starts an extension. -/
def splitextExt (p : String) : String :=
  let base := basenameChars p
  let noLead := base.dropWhile (fun c => c == '.')
  let ext := noLead.reverse.takeWhile (fun c => c != '.')
  if ext.length == noLead.length then "" else String.mk ('.' :: ext.reverse)

/-- The allow-list SUPPORTED_IMAGE_FORMATS. -/
def SUPPORTED_IMAGE_FORMATS : List String :=
  [".jpg", ".jpeg", ".png", ".gif", ".bmp", ".webp", ".svg"]

/-- ImageElement.get_processed_path: the deterministic derived-artifact path
keyed by a prefix of the element identifier. -/
def ImageElement.get_processed_path (e : ImageElement) (slide_id : Int) :
    String :=
  if e.image_path == "" then ""
  else
    let baseName := pyBasename e.image_path
    let ext := splitextExt e.image_path
    let stem := baseName.dropRight ext.length
    "content/slide_" ++ toString slide_id ++ "/images/processed/" ++
      stem ++ "_processed_" ++ e.base.id.take 8 ++ ext

/-! ### Slides (SlideData) -/

/-- Module constant DEFAULT_SLIDE_WIDTH. -/
def DEFAULT_SLIDE_WIDTH : Int := 1920

/-- Module constant DEFAULT_SLIDE_HEIGHT. -/
def DEFAULT_SLIDE_HEIGHT : Int := 1080

/-- The per-slide display configuration dict of SlideData.__init__. -/
structure SlideConfig where
  width : Int := DEFAULT_SLIDE_WIDTH
  height : Int := DEFAULT_SLIDE_HEIGHT
  animation_in : String := "none"
  animation_out : String := "none"
  duration : Int := 5000
  auto_advance : Bool := false
  transition : String := "none"
  background_music : Option String := none
  notes : String := ""
deriving Repr, DecidableEq

/-- The payload dictionary recorded with a history entry, one shape per
action kind of the source (add payloads carry the variant tag together with
the text / path / code / symbol argument). -/
inductive HistoryPayload where
  | addText (text : String)
  | addImage (path : String)
  | addIcon (code : String)
  | addSymbol (symbol : String)
  | removed (d : StoredElement)
  | updated (old : StoredElement) (upd : List (String × AttrValue))
  | reordered (old_z_index new_z_index : Int)
deriving Repr, DecidableEq

/-- One change_history entry of SlideData._add_to_history. -/
structure HistoryEntry where
  timestamp : String
  action : String
  element_id : String
  data : HistoryPayload
  version : Int
deriving Repr, DecidableEq

/-- The slide statistics dictionary of SlideData.get_slide_statistics
(file_sizes stays empty in the source). -/
structure SlideStats where
  total_elements : Nat
  by_type : List (String × Nat)
  total_characters : Nat
  total_words : Nat
  image_count : Nat
deriving Repr, DecidableEq

/-- The state of one slide (SlideData.__init__). -/
structure SlideData where
  slide_id : Int
  title : String
  background_color : String
  background_image : Option String
  background_gradient : Option String
  last_modified : DateTime
  version : Int
  created_at : DateTime
  elements : List (String × Element)
  element_order : List String
  config : SlideConfig
  change_history : List HistoryEntry
deriving Repr, DecidableEq

/-- SlideData.__init__. -/
def SlideData.new (slide_id : Int) (title : String) (background_color : String)
    (now : DateTime) : SlideData where
  slide_id := slide_id
  title := title
  background_color := background_color
  background_image := none
  background_gradient := none
  last_modified := now
  version := 1
  created_at := now
  elements := []
  element_order := []
  config := {}
  change_history := []

/-- SlideData._add_to_history: appends the entry (recording the version at
the time of the change), then truncates the log to its most recent 100
entries when it exceeds 100. -/
def SlideData._add_to_history (s : SlideData) (now : DateTime)
    (action : String) (element_id : String) (data : HistoryPayload) :
    SlideData :=
  let h := s.change_history ++
    [{ timestamp := isoformat now, action := action, element_id := element_id,
       data := data, version := s.version }]
  { s with change_history := if h.length > 100 then lastN 100 h else h }

/-- SlideData._update_modified: refreshes the modification time and advances
the version counter by one. -/
def SlideData._update_modified (s : SlideData) (now : DateTime) : SlideData :=
  { s with last_modified := now, version := s.version + 1 }

/-- The ambient execution environment of slide operations: the file-system
existence predicate, the external PIL operations, image decoding, the
metadata probe of _get_image_info, the PIL thumbnail-creation attempt of
_create_thumbnail (the created path, or the empty string on error), and the
unicodedata Symbol-other test used by _is_emoji — all functionality external
to this repository. -/
structure Env where
  fs : String → Bool
  pil : PILOps
  loadImage : String → Raster
  imageInfoOf : String → ImageInfo
  thumbCreate : String → String
  isSymbolOther : Char → Bool

/-- SlideData.add_text_element. The **options keyword arguments only preset
text attributes of the freshly constructed element (they are forwarded to
TextElement.__init__) and never touch the slide state; the construction is
modeled with the constructor defaults. -/
def SlideData.add_text_element (s : SlideData) (element_id : String)
    (now : DateTime) (text : String) (x y width height : ℚ) :
    SlideData × String :=
  let e := TextElement.new text "Arial" 16 element_id x y width height now
  let s := { s with elements := dictSet s.elements e.base.id (.text e)
                    element_order := s.element_order ++ [e.base.id] }
  let s := s._add_to_history now "add_element" e.base.id (.addText text)
  let s := s._update_modified now
  (s, e.base.id)

/-- SlideData._copy_image_to_slide_folder: rejects an unsupported extension
(lower-cased before the allow-list test), otherwise copies the source into
the slide media folder under a fresh uuid-prefixed filename and returns the
destination path relative to the content root. Directory creation and the
copy are modeled as succeeding (their exception path also returns none). -/
def SlideData._copy_image_to_slide_folder (s : SlideData) (copy_uuid : String)
    (image_path : String) : Option String :=
  let file_ext := pyLower (splitextExt image_path)
  if SUPPORTED_IMAGE_FORMATS.contains file_ext then
    some ("slide_" ++ toString s.slide_id ++ "/images/original/" ++
      copy_uuid ++ "_" ++ pyBasename image_path)
  else none

/-- SlideData.add_image_element: aborts with none when the source file is
missing or the copy step rejects it; otherwise constructs the element with
the copied path, records provenance and probed metadata, appends it, logs
history, advances the version, and finally runs the filter pipeline (a file
side effect outside the slide state). -/
def SlideData.add_image_element (env : Env) (s : SlideData)
    (element_id copy_uuid : String) (now : DateTime) (image_path : String)
    (x y width height : ℚ) : SlideData × Option String :=
  if env.fs image_path then
    match s._copy_image_to_slide_folder copy_uuid image_path with
    | none => (s, none)
    | some copied_path =>
      let e := ImageElement.new copied_path "" element_id x y width height now
      let e := { e with original_path := image_path
                        image_info := env.imageInfoOf image_path }
      let s := { s with elements := dictSet s.elements e.base.id (.image e)
                        element_order := s.element_order ++ [e.base.id] }
      let s := s._add_to_history now "add_element" e.base.id
        (.addImage image_path)
      let s := s._update_modified now
      (s, some e.base.id)
  else (s, none)

/-- SlideData.add_icon_element. -/
def SlideData.add_icon_element (s : SlideData) (element_id : String)
    (now : DateTime) (icon_code : String) (x y : ℚ) (size : Int) :
    SlideData × String :=
  let e := IconElement.new icon_code "unicode" element_id x y (size : ℚ)
    (size : ℚ) now
  let e := { e with icon_size := size }
  let s := { s with elements := dictSet s.elements e.base.id (.icon e)
                    element_order := s.element_order ++ [e.base.id] }
  let s := s._add_to_history now "add_element" e.base.id (.addIcon icon_code)
  let s := s._update_modified now
  (s, e.base.id)

/-- The code-point ranges of SlideData._is_mathematical_symbol. -/
def mathRanges : List (Nat × Nat) :=
  [(0x2200, 0x22FF), (0x2190, 0x21FF), (0x27C0, 0x27EF), (0x2980, 0x29FF)]

/-- SlideData._is_mathematical_symbol. -/
def SlideData._is_mathematical_symbol (text : String) : Bool :=
  text.data.any (fun c =>
    mathRanges.any (fun r => decide (r.1 ≤ c.toNat ∧ c.toNat ≤ r.2)))

/-- SlideData._is_emoji: true when some character has Unicode category So
(the unicodedata probe is external, provided by the environment). -/
def SlideData._is_emoji (env : Env) (text : String) : Bool :=
  text.data.any env.isSymbolOther

/-- SlideData.add_symbol_element, with the automatic symbol-type detection. -/
def SlideData.add_symbol_element (env : Env) (s : SlideData)
    (element_id : String) (now : DateTime) (symbol : String) (x y : ℚ)
    (size : Int) : SlideData × String :=
  let e := SymbolElement.new symbol "emoji" element_id x y (size : ℚ)
    (size : ℚ) now
  let e := { e with symbol_size := size }
  let e :=
    if SlideData._is_emoji env symbol then { e with symbol_type := "emoji" }
    else if SlideData._is_mathematical_symbol symbol then
      { e with symbol_type := "mathematical" }
    else e
  let s := { s with elements := dictSet s.elements e.base.id (.symbol e)
                    element_order := s.element_order ++ [e.base.id] }
  let s := s._add_to_history now "add_element" e.base.id (.addSymbol symbol)
  let s := s._update_modified now
  (s, e.base.id)

/-- SlideData.remove_element: false on an unknown id; otherwise records the
full serialized element in history, removes any derived image files (file
side effects outside the slide state), deletes the id from elements and from
element_order, and advances the version. -/
def SlideData.remove_element (s : SlideData) (now : DateTime)
    (element_id : String) : SlideData × Bool :=
  match dictGet s.elements element_id with
  | none => (s, false)
  | some e =>
    let s := s._add_to_history now "remove_element" element_id
      (.removed e.to_dict)
    let s := { s with elements := dictDel s.elements element_id
                      element_order := s.element_order.erase element_id }
    let s := s._update_modified now
    (s, true)

/-- SlideData.update_element: false on an unknown id; otherwise applies each
keyword update through the hasattr/setattr reflection, refreshes the
element's modification time, re-runs the filter pipeline when a filter_
parameter of an image changed (a file side effect outside the slide state),
records old state and raw payload in history, and advances the version. -/
def SlideData.update_element (s : SlideData) (now : DateTime)
    (element_id : String) (updates : List (String × AttrValue)) :
    SlideData × Bool :=
  match dictGet s.elements element_id with
  | none => (s, false)
  | some e =>
    let old_data := e.to_dict
    let e := updates.foldl (fun a kv => a.setattr kv.1 kv.2) e
    let e := e.setModified now
    let s := { s with elements := dictSet s.elements element_id e }
    let s := s._add_to_history now "update_element" element_id
      (.updated old_data updates)
    let s := s._update_modified now
    (s, true)

/-- The sort key self.elements[eid].z_index used by reorder_element (dangling
ids cannot occur under the maintained order/keys invariant; they are mapped
to 0). -/
def zKey (elements : List (String × Element)) (eid : String) : Int :=
  match dictGet elements eid with
  | some e => e.z_index
  | none => 0

/-- Stable insertion of an id into a run sorted by the key z: the id is
placed before the first id with a key at least its own, so that elements
inserted earlier keep priority among equal keys. -/
def insertByZ (z : String → Int) (x : String) : List String → List String
  | [] => [x]
  | y :: ys => if z y < z x then y :: insertByZ z x ys else x :: y :: ys

/-- Insertion sort by the key z. Python list.sort with a key function is a
stable sort, and every stable sort by the same key produces the same output
list, so this is extensionally the element_order.sort call of the source. -/
def sortByZ (z : String → Int) : List String → List String
  | [] => []
  | x :: xs => insertByZ z x (sortByZ z xs)

/-- SlideData.reorder_element: false on an unknown id; otherwise sets the
element's z-index, stably re-sorts element_order by the current z-indices,
records both z-indices in history, and advances the version. -/
def SlideData.reorder_element (s : SlideData) (now : DateTime)
    (element_id : String) (new_z_index : Int) : SlideData × Bool :=
  match dictGet s.elements element_id with
  | none => (s, false)
  | some e =>
    let old_z_index := e.z_index
    let elements := dictSet s.elements element_id (e.setZIndex new_z_index)
    let s := { s with elements := elements
                      element_order := sortByZ (zKey elements) s.element_order }
    let s := s._add_to_history now "reorder_element" element_id
      (.reordered old_z_index new_z_index)
    let s := s._update_modified now
    (s, true)

/-- SlideData.get_elements_by_type: the sub-dictionary of elements whose type
attribute matches, in dict insertion order. -/
def SlideData.get_elements_by_type (s : SlideData) (element_type : String) :
    List (String × Element) :=
  s.elements.filter (fun p => p.2.etype == element_type)

/-- The element.text attribute access performed on the values filtered by
get_elements_by_type; in Python it is only reached on TextElement instances
(any other class would raise AttributeError), so the remaining branches are
unreachable under normal typing. -/
def Element.textAttr : Element → String
  | .text e => e.text
  | _ => ""

/-- SlideData.get_all_text_content: the newline-join of the text attribute
over the values of get_elements_by_type applied to text. -/
def SlideData.get_all_text_content (s : SlideData) : String :=
  String.intercalate "\n"
    ((s.get_elements_by_type "text").map (fun p => p.2.textAttr))

/-- Occurrence-count bump with Python dict get/assignment semantics,
preserving first-occurrence order. -/
def bumpCount (l : List (String × Nat)) (k : String) : List (String × Nat) :=
  if l.any (fun p => p.1 == k) then
    l.map (fun p => if p.1 == k then (k, p.2 + 1) else p)
  else l ++ [(k, 1)]

/-- Python str.split() with no separator: the number of maximal nonempty
whitespace-free runs. -/
def pyWordCount (s : String) : Nat :=
  ((s.split Char.isWhitespace).filter (fun w => w != "")).length

/-- SlideData.get_slide_statistics. -/
def SlideData.get_slide_statistics (s : SlideData) : SlideStats :=
  s.elements.foldl
    (fun st p =>
      let st := { st with by_type := bumpCount st.by_type p.2.etype }
      if p.2.etype == "text" then
        { st with
          total_characters := st.total_characters + p.2.textAttr.length
          total_words := st.total_words + pyWordCount p.2.textAttr }
      else if p.2.etype == "image" then
        { st with image_count := st.image_count + 1 }
      else st)
    { total_elements := s.elements.length, by_type := []
      total_characters := 0, total_words := 0, image_count := 0 }

/-- SlideData._get_thumbnail_path. -/
def SlideData._get_thumbnail_path (s : SlideData) (e : ImageElement) :
    String :=
  "content/slide_" ++ toString s.slide_id ++ "/images/thumbnails/thumb_" ++
    e.base.id.take 8 ++ ".jpg"

/-- SlideData._create_thumbnail: an existing thumbnail file is reused
verbatim; otherwise the PIL creation attempt runs (the environment oracle,
returning the path on success and the empty string on error). -/
def SlideData._create_thumbnail (env : Env) (s : SlideData)
    (e : ImageElement) : String :=
  let thumbnail_path := s._get_thumbnail_path e
  if env.fs thumbnail_path then thumbnail_path
  else env.thumbCreate thumbnail_path

/-- The per-element record of SlideData.create_processed_version: the
serialized element plus the display-oriented derived fields (absent keys are
none). -/
structure ProcessedElement where
  data : StoredElement
  display_path : Option String
  thumbnail : Option String
  formatted_text : Option String
deriving Repr, DecidableEq

/-- The display-ready projection built by SlideData.create_processed_version. -/
structure ProcessedData where
  slide_id : Int
  title : String
  background_color : String
  background_image : Option String
  background_gradient : Option String
  config : SlideConfig
  elements : List (String × ProcessedElement)
  element_order : List String
  processed_at : String
  version : Int
deriving Repr, DecidableEq

/-- SlideData.create_processed_version: a read-only projection of the slide
(the variant dispatch follows the element.type attribute as in the source;
the branches reading image- or text-specific attributes are only reachable
on the matching class). -/
def SlideData.create_processed_version (env : Env) (s : SlideData)
    (now : DateTime) : ProcessedData where
  slide_id := s.slide_id
  title := s.title
  background_color := s.background_color
  background_image := s.background_image
  background_gradient := s.background_gradient
  config := s.config
  elements := s.elements.map (fun p =>
    let processed : ProcessedElement :=
      { data := p.2.to_dict, display_path := none, thumbnail := none
        formatted_text := none }
    let processed :=
      if p.2.etype == "image" then
        match p.2 with
        | .image e =>
          let processed_path := e.get_processed_path s.slide_id
          { processed with
            display_path := some (if env.fs processed_path then processed_path
                                  else e.image_path)
            thumbnail := some (s._create_thumbnail env e) }
        | _ => processed
      else if p.2.etype == "text" then
        match p.2 with
        | .text e => { processed with formatted_text := some e.get_formatted_text }
        | _ => processed
      else processed
    (p.1, processed))
  element_order := s.element_order
  processed_at := isoformat now
  version := s.version

/-! ### Slide serialization (SlideData.to_dict / SlideData.from_dict) -/

/-- The slide document produced by SlideData.to_dict and consumed by
SlideData.from_dict. -/
structure SlideDict where
  slide_id : Int
  title : String
  background_color : String
  background_image : Option String
  background_gradient : Option String
  created_at : String
  last_modified : String
  version : Int
  config : SlideConfig
  elements : List (String × StoredElement)
  element_order : List String
  change_history : List HistoryEntry
  statistics : SlideStats
deriving Repr, DecidableEq

/-- SlideData.to_dict (the stored history is the 10-entry tail). -/
def SlideData.to_dict (s : SlideData) : SlideDict where
  slide_id := s.slide_id
  title := s.title
  background_color := s.background_color
  background_image := s.background_image
  background_gradient := s.background_gradient
  created_at := isoformat s.created_at
  last_modified := isoformat s.last_modified
  version := s.version
  config := s.config
  elements := s.elements.map (fun p => (p.1, p.2.to_dict))
  element_order := s.element_order
  change_history := lastN 10 s.change_history
  statistics := s.get_slide_statistics

/-- The variant dispatch of the element loop in SlideData.from_dict: the
stored type discriminator selects the concrete from_dict, and a record whose
discriminator is none of the four recognized strings is skipped (continue). -/
def decodeStoredElement (r : StoredElement) (now : DateTime) :
    Option Element :=
  match r with
  | .text d => some (.text (TextElement.from_dict d now))
  | .image d => some (.image (ImageElement.from_dict d now))
  | .icon d => some (.icon (IconElement.from_dict d now))
  | .symbol d => some (.symbol (SymbolElement.from_dict d now))
  | .unknown _ _ => none

/-- SlideData.from_dict: rebuilds the slide from the stored document,
restoring element_order and change_history verbatim, parsing the two slide
timestamps inside one try block (both fall back to now on failure), and
re-populating elements by dispatching each stored record on its type
discriminator, silently skipping unknown variants. -/
def SlideData.from_dict (data : SlideDict) (now : DateTime) : SlideData :=
  let slide := SlideData.new data.slide_id data.title data.background_color now
  let times :=
    match fromisoformat data.created_at, fromisoformat data.last_modified with
    | some c, some m => (c, m)
    | _, _ => (now, now)
  let slide := { slide with
    background_image := data.background_image
    background_gradient := data.background_gradient
    version := data.version
    config := data.config
    element_order := data.element_order
    change_history := data.change_history
    created_at := times.1
    last_modified := times.2 }
  { slide with
    elements := data.elements.foldl (fun acc p =>
      match decodeStoredElement p.2 now with
      | some e => dictSet acc p.1 e
      | none => acc) [] }

/-! ### Call sequences against one slide

Each public SlideData method becomes one operation; the uuid4 stream is
modeled as a counter-indexed family of pairwise distinct identifiers and the
per-call datetime.now() value accompanies each operation. -/

/-- The k-th value of the modeled uuid4 stream (pairwise distinct). -/
def uuidStr (k : Nat) : String :=
  String.mk ('u' :: List.replicate k 'x')

theorem uuidStr_injective : Function.Injective uuidStr := by
  intro a b h
  have hd : ('u' :: List.replicate a 'x') = ('u' :: List.replicate b 'x') := by
    have := congrArg String.data h
    simpa [uuidStr] using this
  have hl := congrArg List.length hd
  simpa using hl

/-- One call against a slide, with its caller-supplied arguments. -/
inductive SlideOp where
  | addText (text : String) (x y width height : ℚ)
  | addImage (image_path : String) (x y width height : ℚ)
  | addIcon (icon_code : String) (x y : ℚ) (size : Int)
  | addSymbol (symbol : String) (x y : ℚ) (size : Int)
  | removeElement (element_id : String)
  | updateElement (element_id : String) (updates : List (String × AttrValue))
  | reorderElement (element_id : String) (new_z_index : Int)
  | processedVersion
  | statistics
  | elementsByType (element_type : String)
  | allTextContent
deriving Repr, DecidableEq

/-- The value returned by one call. -/
inductive StepResult where
  | rid (element_id : String)
  | ridOpt (element_id : Option String)
  | ok (b : Bool)
  | processed (d : ProcessedData)
  | stats (st : SlideStats)
  | elems (l : List (String × Element))
  | textContent (t : String)
deriving Repr, DecidableEq

/-- A slide paired with the position reached in the uuid4 stream. -/
structure SlideState where
  slide : SlideData
  nextId : Nat
deriving Repr, DecidableEq

/-- A freshly constructed slide with an unconsumed uuid stream. -/
def freshState (slide_id : Int) (title : String) (background_color : String)
    (now : DateTime) : SlideState where
  slide := SlideData.new slide_id title background_color now
  nextId := 0

/-- Dispatch of one call (add_image_element consumes two uuid4 values: one
for the element id and one inside _copy_image_to_slide_folder). -/
def step (env : Env) (now : DateTime) (st : SlideState) (op : SlideOp) :
    SlideState × StepResult :=
  match op with
  | .addText text x y w h =>
    let r := st.slide.add_text_element (uuidStr st.nextId) now text x y w h
    ({ slide := r.1, nextId := st.nextId + 1 }, .rid r.2)
  | .addImage p x y w h =>
    let r := st.slide.add_image_element env (uuidStr st.nextId)
      (uuidStr (st.nextId + 1)) now p x y w h
    ({ slide := r.1, nextId := st.nextId + 2 }, .ridOpt r.2)
  | .addIcon code x y size =>
    let r := st.slide.add_icon_element (uuidStr st.nextId) now code x y size
    ({ slide := r.1, nextId := st.nextId + 1 }, .rid r.2)
  | .addSymbol sym x y size =>
    let r := st.slide.add_symbol_element env (uuidStr st.nextId) now sym x y size
    ({ slide := r.1, nextId := st.nextId + 1 }, .rid r.2)
  | .removeElement eid =>
    let r := st.slide.remove_element now eid
    ({ st with slide := r.1 }, .ok r.2)
  | .updateElement eid u =>
    let r := st.slide.update_element now eid u
    ({ st with slide := r.1 }, .ok r.2)
  | .reorderElement eid z =>
    let r := st.slide.reorder_element now eid z
    ({ st with slide := r.1 }, .ok r.2)
  | .processedVersion =>
    (st, .processed (st.slide.create_processed_version env now))
  | .statistics => (st, .stats st.slide.get_slide_statistics)
  | .elementsByType t => (st, .elems (st.slide.get_elements_by_type t))
  | .allTextContent => (st, .textContent st.slide.get_all_text_content)

/-- Running a sequence of timed calls. -/
def run (env : Env) (st : SlideState) :
    List (DateTime × SlideOp) → SlideState
  | [] => st
  | (now, op) :: rest => run env (step env now st op).1 rest

/-- The history entries a single call appends before truncation (empty for a
failing call and for the read-only queries); the conditions mirror the
corresponding branches of step. -/
def appendedEntries (env : Env) (now : DateTime) (st : SlideState) :
    SlideOp → List HistoryEntry
  | .addText text _ _ _ _ =>
    [{ timestamp := isoformat now, action := "add_element"
       element_id := uuidStr st.nextId, data := .addText text
       version := st.slide.version }]
  | .addImage p _ _ _ _ =>
    if env.fs p then
      if SUPPORTED_IMAGE_FORMATS.contains (pyLower (splitextExt p)) then
        [{ timestamp := isoformat now, action := "add_element"
           element_id := uuidStr st.nextId, data := .addImage p
           version := st.slide.version }]
      else []
    else []
  | .addIcon code _ _ _ =>
    [{ timestamp := isoformat now, action := "add_element"
       element_id := uuidStr st.nextId, data := .addIcon code
       version := st.slide.version }]
  | .addSymbol sym _ _ _ =>
    [{ timestamp := isoformat now, action := "add_element"
       element_id := uuidStr st.nextId, data := .addSymbol sym
       version := st.slide.version }]
  | .removeElement eid =>
    match dictGet st.slide.elements eid with
    | none => []
    | some e =>
      [{ timestamp := isoformat now, action := "remove_element"
         element_id := eid, data := .removed e.to_dict
         version := st.slide.version }]
  | .updateElement eid u =>
    match dictGet st.slide.elements eid with
    | none => []
    | some e =>
      [{ timestamp := isoformat now, action := "update_element"
         element_id := eid, data := .updated e.to_dict u
         version := st.slide.version }]
  | .reorderElement eid z =>
    match dictGet st.slide.elements eid with
    | none => []
    | some e =>
      [{ timestamp := isoformat now, action := "reorder_element"
         element_id := eid, data := .reordered e.z_index z
         version := st.slide.version }]
  | .processedVersion => []
  | .statistics => []
  | .elementsByType _ => []
  | .allTextContent => []

/-- The full, untruncated history log of a run: every entry ever recorded,
oldest first. -/
def runLog (env : Env) (st : SlideState) :
    List (DateTime × SlideOp) → List HistoryEntry
  | [] => []
  | (now, op) :: rest =>
    appendedEntries env now st op ++ runLog env (step env now st op).1 rest

/-- A minimal concrete environment for witness computations: an empty file
system and identity raster operations. -/
def env0 : Env where
  fs := fun _ => false
  pil := { brightness := fun i _ => i, contrast := fun i _ => i
           color := fun i _ => i, gaussianBlur := fun i _ => i
           grayscaleOf := fun i => i, blend := fun i _ _ => i }
  loadImage := fun _ => []
  imageInfoOf := fun _ => {}
  thumbCreate := fun _ => ""
  isSymbolOther := fun _ => false

/-- A concrete environment in which every path exists. -/
def envFull : Env :=
  { env0 with fs := fun _ => true }

/-! ## Theorems -/

theorem pyInt_mix_100 (c t : ℤ) :
    pyInt ((c : ℚ) + ((t : ℚ) - (c : ℚ)) * (((100 : ℤ)) : ℚ) / 100) = t := by
  have h : ((c : ℚ) + ((t : ℚ) - (c : ℚ)) * (((100 : ℤ)) : ℚ) / 100)
      = ((t : ℤ) : ℚ) := by
    push_cast
    ring
  rw [h, pyInt_intCast]

theorem pyInt_mix_0 (c t : ℤ) :
    pyInt ((c : ℚ) + ((t : ℚ) - (c : ℚ)) * (((0 : ℤ)) : ℚ) / 100) = c := by
  have h : ((c : ℚ) + ((t : ℚ) - (c : ℚ)) * (((0 : ℤ)) : ℚ) / 100)
      = ((c : ℤ) : ℚ) := by
    push_cast
    ring
  rw [h, pyInt_intCast]

/-- C6: for every RGB pixel, the sepia blend at intensity 100 is exactly the
clamped truncated matrix transform, at intensity 0 it is the original pixel,
and at any intensity i each output channel is int(c + (tc - c) * i / 100)
with tc the clamped transform of that channel. -/
theorem sepia_blend_endpoints :
    ∀ r g b : ℤ,
      sepiaPixel 100 (r, g, b) =
        (min 255 (pyInt (0.393 * (r : ℚ) + 0.769 * (g : ℚ) + 0.189 * (b : ℚ))),
         min 255 (pyInt (0.349 * (r : ℚ) + 0.686 * (g : ℚ) + 0.168 * (b : ℚ))),
         min 255 (pyInt (0.272 * (r : ℚ) + 0.534 * (g : ℚ) + 0.131 * (b : ℚ))))
      ∧ sepiaPixel 0 (r, g, b) = (r, g, b)
      ∧ ∀ i : ℤ,
          sepiaPixel i (r, g, b) =
            (pyInt ((r : ℚ) +
              (((min 255 (pyInt (0.393 * (r : ℚ) + 0.769 * (g : ℚ) +
                0.189 * (b : ℚ))) : ℤ) : ℚ) - (r : ℚ)) * (i : ℚ) / 100),
             pyInt ((g : ℚ) +
              (((min 255 (pyInt (0.349 * (r : ℚ) + 0.686 * (g : ℚ) +
                0.168 * (b : ℚ))) : ℤ) : ℚ) - (g : ℚ)) * (i : ℚ) / 100),
             pyInt ((b : ℚ) +
              (((min 255 (pyInt (0.272 * (r : ℚ) + 0.534 * (g : ℚ) +
                0.131 * (b : ℚ))) : ℤ) : ℚ) - (b : ℚ)) * (i : ℚ) / 100)) := by
  intro r g b
  refine ⟨?_, ?_, fun i => rfl⟩
  · simp only [sepiaPixel, pyInt_mix_100]
  · simp only [sepiaPixel, pyInt_mix_0]

/-- C9: the filter pipeline never reads the hue and invert parameters of the
filter bank, so two runs differing only in those two parameters produce the
same success flag and the same processed output. -/
theorem apply_filters_hue_invert_independent :
    ∀ (ops : PILOps) (fs : String → Bool) (loadImage : String → Raster)
      (e : ImageElement) (hue invert : Int),
      ImageElement.apply_filters ops fs loadImage
        { e with filter_effects :=
            { e.filter_effects with hue := hue, invert := invert } }
      = ImageElement.apply_filters ops fs loadImage e := by
  intro ops fs loadImage e hue invert
  rfl

/-- C4: add_image_element on a source path that does not exist, or whose
lower-cased extension is outside the allow-list, returns none and the slide
completely unchanged (no element, no order entry, no history, same version). -/
theorem add_image_element_rejects
    (env : Env) (s : SlideData) (element_id copy_uuid : String)
    (now : DateTime) (image_path : String) (x y width height : ℚ)
    (h : env.fs image_path = false ∨
      SUPPORTED_IMAGE_FORMATS.contains (pyLower (splitextExt image_path))
        = false) :
    s.add_image_element env element_id copy_uuid now image_path x y width
      height = (s, none) := by
  unfold SlideData.add_image_element
  rcases h with h | h
  · simp [h]
  · have h' : pyLower (splitextExt image_path) ∉ SUPPORTED_IMAGE_FORMATS := by
      simpa using h
    cases henv : env.fs image_path <;>
      simp [SlideData._copy_image_to_slide_folder, h']

theorem add_image_element_rejects_witness :
    (SUPPORTED_IMAGE_FORMATS.contains (pyLower (splitextExt "pic.tiff"))
      = false) ∧
    (SlideData.new 1 "t" "#ffffff" 0).add_image_element envFull "e" "c" 1
      "pic.tiff" 0 0 100 100 = (SlideData.new 1 "t" "#ffffff" 0, none) :=
  ⟨by decide, add_image_element_rejects envFull _ "e" "c" 1 "pic.tiff"
    0 0 100 100 (Or.inr (by decide))⟩

/-- C1: variant from_dict applied to variant to_dict output reproduces every
field of every element exactly (the embedded timestamps always serialize to
valid form, under which they round-trip exactly); and whenever a stored
timestamp fails to parse, both restored timestamps fall back to the current
time. -/
theorem element_serialization_roundtrip :
    (∀ (e : TextElement) (now : DateTime),
      TextElement.from_dict e.to_dict now = e)
  ∧ (∀ (e : ImageElement) (now : DateTime),
      ImageElement.from_dict e.to_dict now = e)
  ∧ (∀ (e : IconElement) (now : DateTime),
      IconElement.from_dict e.to_dict now = e)
  ∧ (∀ (e : SymbolElement) (now : DateTime),
      SymbolElement.from_dict e.to_dict now = e)
  ∧ (∀ (d : BaseDict) (now : DateTime),
      fromisoformat d.created_at = none ∨ fromisoformat d.modified_at = none →
      (ContentElement.from_base_dict d now).created_at = now ∧
      (ContentElement.from_base_dict d now).modified_at = now) := by
  refine ⟨fun e now => ?_, fun e now => ?_, fun e now => ?_, fun e now => ?_,
    fun d now h => ?_⟩
  · simp [TextElement.from_dict, TextElement.to_dict, from_base_dict_to_dict]
  · simp [ImageElement.from_dict, ImageElement.to_dict, from_base_dict_to_dict]
  · simp [IconElement.from_dict, IconElement.to_dict, from_base_dict_to_dict]
  · simp [SymbolElement.from_dict, SymbolElement.to_dict,
      from_base_dict_to_dict]
  · rcases h with h | h
    · cases hm : fromisoformat d.modified_at <;>
        simp [ContentElement.from_base_dict, h, hm]
    · cases hc : fromisoformat d.created_at <;>
        simp [ContentElement.from_base_dict, h, hc]

/-- A stored base record whose timestamps are not parseable. -/
def badBaseDict : BaseDict where
  id := "e"
  type := "text"
  x := 0
  y := 0
  width := 100
  height := 50
  z_index := 0
  visible := true
  locked := false
  created_at := "not-a-timestamp"
  modified_at := "also-bad"
  style := {}
  animation := {}

theorem element_serialization_roundtrip_witness :
    (fromisoformat badBaseDict.created_at = none ∨
      fromisoformat badBaseDict.modified_at = none) ∧
    (ContentElement.from_base_dict badBaseDict 7).created_at = 7 ∧
    (ContentElement.from_base_dict badBaseDict 7).modified_at = 7 :=
  ⟨Or.inl (by decide),
    element_serialization_roundtrip.2.2.2.2 badBaseDict 7 (Or.inl (by decide))⟩

/-- A slide document whose element_order names an id whose stored record has
an unrecognized variant discriminator. -/
def unknownElementDoc : SlideDict where
  slide_id := 1
  title := "s"
  background_color := "#ffffff"
  background_image := none
  background_gradient := none
  created_at := "T"
  last_modified := "T"
  version := 3
  config := {}
  elements := [("e1", .unknown "blob"
    { id := "e1", type := "blob", x := 0, y := 0, width := 100, height := 50
      z_index := 0, visible := true, locked := false, created_at := "T"
      modified_at := "T", style := {}, animation := {} })]
  element_order := ["e1"]
  change_history := []
  statistics := { total_elements := 1, by_type := [("blob", 1)]
                  total_characters := 0, total_words := 0, image_count := 0 }

/-- C10: SlideData.from_dict restores element_order verbatim for every input
document while the element loop skips records with an unknown variant
discriminator; on the concrete document above this leaves an id in
element_order that is absent from elements, so deserialization does not
re-establish the order/keys sync invariant. -/
theorem from_dict_restores_order_verbatim_and_breaks_sync :
    (∀ (d : SlideDict) (now : DateTime),
      (SlideData.from_dict d now).element_order = d.element_order)
  ∧ ("e1" ∈ (SlideData.from_dict unknownElementDoc 0).element_order
      ∧ dictGet (SlideData.from_dict unknownElementDoc 0).elements "e1"
          = none) := by
  refine ⟨fun d now => rfl, by decide, by decide⟩

/-! ### Framing lemmas for the bookkeeping methods -/

@[simp]
theorem _add_to_history_elements (s : SlideData) (now : DateTime)
    (action element_id : String) (data : HistoryPayload) :
    (s._add_to_history now action element_id data).elements = s.elements :=
  rfl

@[simp]
theorem _add_to_history_element_order (s : SlideData) (now : DateTime)
    (action element_id : String) (data : HistoryPayload) :
    (s._add_to_history now action element_id data).element_order
      = s.element_order :=
  rfl

@[simp]
theorem _add_to_history_version (s : SlideData) (now : DateTime)
    (action element_id : String) (data : HistoryPayload) :
    (s._add_to_history now action element_id data).version = s.version :=
  rfl

@[simp]
theorem _update_modified_elements (s : SlideData) (now : DateTime) :
    (s._update_modified now).elements = s.elements :=
  rfl

@[simp]
theorem _update_modified_element_order (s : SlideData) (now : DateTime) :
    (s._update_modified now).element_order = s.element_order :=
  rfl

@[simp]
theorem _update_modified_version (s : SlideData) (now : DateTime) :
    (s._update_modified now).version = s.version + 1 :=
  rfl

@[simp]
theorem _update_modified_change_history (s : SlideData) (now : DateTime) :
    (s._update_modified now).change_history = s.change_history :=
  rfl

/-- The membership test behind the Bool-valued dict primitives. -/
theorem dictGet_some_contains {d : List (String × α)} {k : String} {v : α}
    (h : dictGet d k = some v) : dictContains d k = true := by
  induction d with
  | nil => simp [dictGet] at h
  | cons p t ih =>
    cases hp : (p.1 == k) with
    | true => simp [dictContains, hp]
    | false =>
      simp only [dictGet, List.find?, hp] at h
      simp only [dictContains, List.any_cons, hp, Bool.false_or]
      exact ih h

theorem dictContains_some {d : List (String × α)} {k : String}
    (h : dictContains d k = true) : ∃ v, dictGet d k = some v := by
  induction d with
  | nil => simp [dictContains] at h
  | cons p t ih =>
    cases hp : (p.1 == k) with
    | true => exact ⟨p.2, by simp [dictGet, List.find?, hp]⟩
    | false =>
      simp only [dictContains, List.any_cons, hp, Bool.false_or] at h
      obtain ⟨v, hv⟩ := ih h
      refine ⟨v, ?_⟩
      simp only [dictGet, List.find?, hp] at hv ⊢
      exact hv

/-- C2: every successful mutating call (the four adds, remove, update and
reorder with a known id, and add_image_element when it returns an id)
advances the slide version by exactly one, and the read-only calls
(create_processed_version, get_slide_statistics, get_elements_by_type,
get_all_text_content) leave it unchanged. -/
theorem slide_version_transitions (env : Env) (now : DateTime)
    (st : SlideState) :
    (∀ text x y w h,
      (step env now st (.addText text x y w h)).1.slide.version
        = st.slide.version + 1)
    ∧ (∀ p x y w h,
        (step env now st (.addImage p x y w h)).2 ≠ .ridOpt none →
        (step env now st (.addImage p x y w h)).1.slide.version
          = st.slide.version + 1)
    ∧ (∀ code x y size,
        (step env now st (.addIcon code x y size)).1.slide.version
          = st.slide.version + 1)
    ∧ (∀ sym x y size,
        (step env now st (.addSymbol sym x y size)).1.slide.version
          = st.slide.version + 1)
    ∧ (∀ eid, dictContains st.slide.elements eid = true →
        (step env now st (.removeElement eid)).1.slide.version
          = st.slide.version + 1)
    ∧ (∀ eid u, dictContains st.slide.elements eid = true →
        (step env now st (.updateElement eid u)).1.slide.version
          = st.slide.version + 1)
    ∧ (∀ eid z, dictContains st.slide.elements eid = true →
        (step env now st (.reorderElement eid z)).1.slide.version
          = st.slide.version + 1)
    ∧ (step env now st .processedVersion).1.slide.version = st.slide.version
    ∧ (step env now st .statistics).1.slide.version = st.slide.version
    ∧ (∀ t, (step env now st (.elementsByType t)).1.slide.version
        = st.slide.version)
    ∧ (step env now st .allTextContent).1.slide.version = st.slide.version := by
  refine ⟨fun text x y w h => ?_, fun p x y w h hok => ?_,
    fun code x y size => ?_, fun sym x y size => ?_, fun eid h => ?_,
    fun eid u h => ?_, fun eid z h => ?_, rfl, rfl, fun t => rfl, rfl⟩
  · simp [step, SlideData.add_text_element]
  · simp only [step] at hok ⊢
    unfold SlideData.add_image_element at hok ⊢
    cases henv : env.fs p with
    | false =>
      rw [henv] at hok
      simp at hok
    | true =>
      rw [henv] at hok
      cases hcopy :
          st.slide._copy_image_to_slide_folder (uuidStr (st.nextId + 1)) p with
      | none =>
        rw [hcopy] at hok
        simp at hok
      | some cp => simp
  · simp [step, SlideData.add_icon_element]
  · simp [step, SlideData.add_symbol_element]
  · obtain ⟨v, hv⟩ := dictContains_some h
    simp [step, SlideData.remove_element, hv]
  · obtain ⟨v, hv⟩ := dictContains_some h
    simp [step, SlideData.update_element, hv]
  · obtain ⟨v, hv⟩ := dictContains_some h
    simp [step, SlideData.reorder_element, hv]

/-- A one-element slide state used to instantiate the hypotheses of the
version-transition theorem. -/
def versionWitnessState : SlideState :=
  (step envFull 1 (freshState 1 "t" "#ffffff" 0) (.addText "A" 0 0 200 50)).1

theorem slide_version_transitions_witness :
    ((step envFull 2 versionWitnessState (.addImage "p.png" 0 0 100 100)).2
        ≠ .ridOpt none
      ∧ (step envFull 2 versionWitnessState
          (.addImage "p.png" 0 0 100 100)).1.slide.version
        = versionWitnessState.slide.version + 1)
    ∧ (dictContains versionWitnessState.slide.elements (uuidStr 0) = true
      ∧ (step envFull 2 versionWitnessState
          (.removeElement (uuidStr 0))).1.slide.version
        = versionWitnessState.slide.version + 1)
    ∧ (step envFull 2 versionWitnessState
        (.updateElement (uuidStr 0) [("text", .s "B")])).1.slide.version
      = versionWitnessState.slide.version + 1
    ∧ (step envFull 2 versionWitnessState
        (.reorderElement (uuidStr 0) 4)).1.slide.version
      = versionWitnessState.slide.version + 1 :=
  ⟨⟨by decide,
    (slide_version_transitions envFull 2 versionWitnessState).2.1
      "p.png" 0 0 100 100 (by decide)⟩,
   ⟨by decide,
    (slide_version_transitions envFull 2 versionWitnessState).2.2.2.2.1
      (uuidStr 0) (by decide)⟩,
   (slide_version_transitions envFull 2 versionWitnessState).2.2.2.2.2.1
      (uuidStr 0) [("text", .s "B")] (by decide),
   (slide_version_transitions envFull 2 versionWitnessState).2.2.2.2.2.2.1
      (uuidStr 0) 4 (by decide)⟩

/-! ### Key-set lemmas for the dict model -/

theorem dictContains_iff_mem {d : List (String × α)} {k : String} :
    dictContains d k = true ↔ k ∈ dictKeys d := by
  simp only [dictContains, dictKeys, List.any_eq_true, List.mem_map,
    beq_iff_eq]

theorem dictKeys_dictSet_of_not_contains {d : List (String × α)} {k : String}
    (v : α) (h : dictContains d k = false) :
    dictKeys (dictSet d k v) = dictKeys d ++ [k] := by
  simp only [dictContains] at h
  simp [dictSet, dictKeys, h]

theorem dictKeys_dictSet_of_contains {d : List (String × α)} {k : String}
    (v : α) (h : dictContains d k = true) :
    dictKeys (dictSet d k v) = dictKeys d := by
  simp only [dictContains] at h
  simp only [dictSet, h, if_true, dictKeys, List.map_map]
  apply List.map_congr_left
  intro p _
  cases hpk : (p.1 == k) with
  | true => simp [Function.comp, hpk, eq_of_beq hpk]
  | false => simp [Function.comp, hpk]

theorem dictKeys_dictDel (d : List (String × α)) (k : String) :
    dictKeys (dictDel d k) = (dictKeys d).filter (fun s => s != k) := by
  induction d with
  | nil => rfl
  | cons p t ih =>
    simp only [dictDel, dictKeys, List.filter_cons] at ih ⊢
    cases hp : (p.1 != k) <;> simp [hp, ih]

theorem filter_ne_of_nodup (l : List String) (k : String) (h : l.Nodup) :
    l.filter (fun s => s != k) = l.erase k := by
  induction l with
  | nil => rfl
  | cons a t ih =>
    rw [List.nodup_cons] at h
    cases hak : (a == k) with
    | true =>
      have ha : a = k := eq_of_beq hak
      subst ha
      have hfilter : List.filter (fun s => s != a) t = t := by
        apply List.filter_eq_self.mpr
        intro b hb
        have hba : b ≠ a := fun hba => h.1 (hba ▸ hb)
        simpa using hba
      simp [List.erase_cons, List.filter_cons, hfilter]
    | false =>
      simp [List.erase_cons, List.filter_cons, hak, ih h.2,
        ne_of_beq_false hak]

/-! ### Stability and sortedness of the reorder sort -/

theorem insertByZ_perm (z : String → Int) (x : String) (l : List String) :
    (insertByZ z x l).Perm (x :: l) := by
  induction l with
  | nil => exact List.Perm.refl _
  | cons y ys ih =>
    unfold insertByZ
    by_cases h : z y < z x
    · simp only [if_pos h]
      exact List.Perm.trans (List.Perm.cons y ih) (List.Perm.swap x y ys)
    · simp only [if_neg h]
      exact List.Perm.refl _

theorem sortByZ_perm (z : String → Int) (l : List String) :
    (sortByZ z l).Perm l := by
  induction l with
  | nil => exact List.Perm.refl _
  | cons x xs ih =>
    unfold sortByZ
    exact List.Perm.trans (insertByZ_perm z x (sortByZ z xs))
      (List.Perm.cons x ih)

theorem insertByZ_sorted (z : String → Int) (x : String) :
    ∀ l : List String, l.Pairwise (fun a b => z a ≤ z b) →
      (insertByZ z x l).Pairwise (fun a b => z a ≤ z b) := by
  intro l
  induction l with
  | nil => intro _; simp [insertByZ]
  | cons y ys ih =>
    intro h
    rw [List.pairwise_cons] at h
    unfold insertByZ
    by_cases hz : z y < z x
    · simp only [if_pos hz]
      rw [List.pairwise_cons]
      refine ⟨?_, ih h.2⟩
      intro b hb
      have hmem := (insertByZ_perm z x ys).mem_iff.mp hb
      rcases List.mem_cons.mp hmem with rfl | hb2
      · exact le_of_lt hz
      · exact h.1 b hb2
    · simp only [if_neg hz]
      rw [List.pairwise_cons]
      refine ⟨?_, List.pairwise_cons.mpr h⟩
      intro b hb
      rcases List.mem_cons.mp hb with rfl | hb2
      · exact le_of_not_lt hz
      · exact le_trans (le_of_not_lt hz) (h.1 b hb2)

theorem sortByZ_sorted (z : String → Int) (l : List String) :
    (sortByZ z l).Pairwise (fun a b => z a ≤ z b) := by
  induction l with
  | nil => simp [sortByZ]
  | cons x xs ih => exact insertByZ_sorted z x _ ih

/-! ### The order/keys invariant (claim C3) -/

/-- The slide-level well-formedness maintained by every operation: unique
keys, element_order a permutation of the key set, and every key drawn from
the consumed prefix of the uuid stream. -/
def goodState (st : SlideState) : Prop :=
  (dictKeys st.slide.elements).Nodup
  ∧ st.slide.element_order.Perm (dictKeys st.slide.elements)
  ∧ ∀ k ∈ dictKeys st.slide.elements, ∃ j, j < st.nextId ∧ k = uuidStr j

theorem fresh_not_contains {st : SlideState} (hg : goodState st)
    {j : Nat} (hj : st.nextId ≤ j) :
    dictContains st.slide.elements (uuidStr j) = false := by
  cases hc : dictContains st.slide.elements (uuidStr j) with
  | false => rfl
  | true =>
    exfalso
    obtain ⟨i, hi, hik⟩ := hg.2.2 _ (dictContains_iff_mem.mp hc)
    have := uuidStr_injective hik
    omega

theorem goodState_bump {st : SlideState} (hg : goodState st) (n : Nat) :
    goodState { slide := st.slide, nextId := st.nextId + n } := by
  refine ⟨hg.1, hg.2.1, fun k hk => ?_⟩
  obtain ⟨j, hj, hjk⟩ := hg.2.2 k hk
  refine ⟨j, ?_, hjk⟩
  show j < st.nextId + n
  omega

theorem goodState_insert {st : SlideState} (hg : goodState st)
    (slide2 : SlideData) (elem : Element) (bump : Nat) (hb : 1 ≤ bump)
    (he : slide2.elements = dictSet st.slide.elements (uuidStr st.nextId) elem)
    (ho : slide2.element_order
      = st.slide.element_order ++ [uuidStr st.nextId]) :
    goodState { slide := slide2, nextId := st.nextId + bump } := by
  have hfresh : dictContains st.slide.elements (uuidStr st.nextId) = false :=
    fresh_not_contains hg (le_refl _)
  have hnotmem : uuidStr st.nextId ∉ dictKeys st.slide.elements := by
    intro hmem
    rw [← dictContains_iff_mem, hfresh] at hmem
    exact Bool.false_ne_true hmem
  have hkeys : dictKeys slide2.elements
      = dictKeys st.slide.elements ++ [uuidStr st.nextId] := by
    rw [he]
    exact dictKeys_dictSet_of_not_contains _ hfresh
  refine ⟨?_, ?_, ?_⟩
  · rw [hkeys]
    simp [List.nodup_append, hg.1, hnotmem]
  · rw [ho, hkeys]
    exact hg.2.1.append_right [uuidStr st.nextId]
  · intro k hk
    rw [hkeys] at hk
    rcases List.mem_append.mp hk with hk | hk
    · obtain ⟨j, hj, hjk⟩ := hg.2.2 k hk
      refine ⟨j, ?_, hjk⟩
      show j < st.nextId + bump
      omega
    · rw [List.mem_singleton] at hk
      refine ⟨st.nextId, ?_, hk⟩
      show st.nextId < st.nextId + bump
      omega

theorem goodState_remove {st : SlideState} (hg : goodState st)
    (slide2 : SlideData) (eid : String)
    (he : slide2.elements = dictDel st.slide.elements eid)
    (ho : slide2.element_order = st.slide.element_order.erase eid) :
    goodState { slide := slide2, nextId := st.nextId } := by
  have hkeys : dictKeys slide2.elements
      = (dictKeys st.slide.elements).filter (fun s => s != eid) := by
    rw [he]
    exact dictKeys_dictDel _ _
  refine ⟨?_, ?_, ?_⟩
  · rw [hkeys]
    exact hg.1.filter _
  · rw [ho, hkeys, filter_ne_of_nodup _ _ hg.1]
    exact hg.2.1.erase eid
  · intro k hk
    rw [hkeys] at hk
    exact hg.2.2 k (List.mem_of_mem_filter hk)

theorem goodState_keyfix {st : SlideState} (hg : goodState st)
    (slide2 : SlideData) (eid : String) (v : Element)
    (hcont : dictContains st.slide.elements eid = true)
    (he : slide2.elements = dictSet st.slide.elements eid v)
    (ho : slide2.element_order.Perm st.slide.element_order) :
    goodState { slide := slide2, nextId := st.nextId } := by
  have hkeys : dictKeys slide2.elements = dictKeys st.slide.elements := by
    rw [he]
    exact dictKeys_dictSet_of_contains _ hcont
  refine ⟨?_, ?_, ?_⟩
  · rw [hkeys]
    exact hg.1
  · rw [hkeys]
    exact ho.trans hg.2.1
  · rw [hkeys]
    exact hg.2.2

theorem step_good (env : Env) (now : DateTime) (st : SlideState)
    (op : SlideOp) (hg : goodState st) : goodState (step env now st op).1 := by
  cases op with
  | addText text x y w h =>
    exact goodState_insert hg _ (.text (TextElement.new text "Arial" 16
      (uuidStr st.nextId) x y w h now)) 1 (le_refl 1) rfl rfl
  | addImage p x y w h =>
    simp only [step]
    unfold SlideData.add_image_element
    cases henv : env.fs p with
    | false => exact goodState_bump hg 2
    | true =>
      cases hcopy :
          st.slide._copy_image_to_slide_folder (uuidStr (st.nextId + 1)) p with
      | none => exact goodState_bump hg 2
      | some cp =>
        refine goodState_insert hg _ _ 2 (by omega) rfl rfl
  | addIcon code x y size =>
    exact goodState_insert hg _ _ 1 (le_refl 1) rfl rfl
  | addSymbol sym x y size =>
    simp only [step]
    unfold SlideData.add_symbol_element
    by_cases h1 : SlideData._is_emoji env sym = true
    · simp only [h1, if_true]
      exact goodState_insert hg _ _ 1 (le_refl 1) rfl rfl
    · by_cases h2 : SlideData._is_mathematical_symbol sym = true
      · simp only [h1, h2, if_true, if_false]
        exact goodState_insert hg _ _ 1 (le_refl 1) rfl rfl
      · simp only [h1, h2, if_false]
        exact goodState_insert hg _ _ 1 (le_refl 1) rfl rfl
  | removeElement eid =>
    simp only [step]
    unfold SlideData.remove_element
    cases hget : dictGet st.slide.elements eid with
    | none => exact hg
    | some e => exact goodState_remove hg _ eid rfl rfl
  | updateElement eid u =>
    simp only [step]
    unfold SlideData.update_element
    cases hget : dictGet st.slide.elements eid with
    | none => exact hg
    | some e =>
      exact goodState_keyfix hg _ eid _ (dictGet_some_contains hget) rfl
        (List.Perm.refl _)
  | reorderElement eid z =>
    simp only [step]
    unfold SlideData.reorder_element
    cases hget : dictGet st.slide.elements eid with
    | none => exact hg
    | some e =>
      exact goodState_keyfix hg _ eid _ (dictGet_some_contains hget) rfl
        (sortByZ_perm _ _)
  | processedVersion => exact hg
  | statistics => exact hg
  | elementsByType t => exact hg
  | allTextContent => exact hg

theorem run_good (env : Env) (ops : List (DateTime × SlideOp)) :
    ∀ st : SlideState, goodState st → goodState (run env st ops) := by
  induction ops with
  | nil => intro st h; exact h
  | cons p rest ih =>
    intro st h
    obtain ⟨now, op⟩ := p
    exact ih _ (step_good env now st op h)

/-- C3: starting from a freshly constructed slide, after any sequence of
calls (in particular any sequence of the four adds, remove_element and
reorder_element), element_order is a duplicate-free permutation of exactly
the key set of the elements mapping. -/
theorem element_order_matches_elements
    (env : Env) (slide_id : Int) (title background_color : String)
    (now0 : DateTime) (ops : List (DateTime × SlideOp)) :
    List.Perm
      ((run env (freshState slide_id title background_color now0)
        ops).slide.element_order)
      (dictKeys
        ((run env (freshState slide_id title background_color now0)
          ops).slide.elements))
    ∧ List.Nodup
      ((run env (freshState slide_id title background_color now0)
        ops).slide.element_order) := by
  have h0 : goodState (freshState slide_id title background_color now0) :=
    ⟨List.nodup_nil, List.Perm.refl _, fun k hk => absurd hk
      (List.not_mem_nil k)⟩
  have h := run_good env ops _ h0
  exact ⟨h.2.1, (h.2.1.nodup_iff).mpr h.1⟩

/-! ### The bounded history log (claim C7) -/

theorem _add_to_history_eq (s : SlideData) (now : DateTime)
    (action element_id : String) (data : HistoryPayload) :
    (s._add_to_history now action element_id data).change_history
      = lastN 100 (s.change_history ++
          [{ timestamp := isoformat now, action := action
             element_id := element_id, data := data
             version := s.version }]) := by
  simp only [SlideData._add_to_history]
  by_cases h : (s.change_history ++
      [({ timestamp := isoformat now, action := action
          element_id := element_id, data := data
          version := s.version } : HistoryEntry)]).length > 100
  · rw [if_pos h]
  · rw [if_neg h, lastN_of_length_le (by omega)]

theorem step_history (env : Env) (now : DateTime) (st : SlideState)
    (op : SlideOp) (g : List HistoryEntry)
    (hh : st.slide.change_history = lastN 100 g) :
    (step env now st op).1.slide.change_history
      = lastN 100 (g ++ appendedEntries env now st op) := by
  cases op with
  | addText text x y w h =>
    simp only [step, SlideData.add_text_element, appendedEntries,
      TextElement.new, ContentElement.new,
      _update_modified_change_history, _add_to_history_eq]
    rw [hh, lastN_lastN_append]
  | addImage p x y w h =>
    simp only [step, appendedEntries]
    unfold SlideData.add_image_element SlideData._copy_image_to_slide_folder
    by_cases henv : env.fs p = true
    · rw [if_pos henv, if_pos henv]
      by_cases hsup :
          SUPPORTED_IMAGE_FORMATS.contains (pyLower (splitextExt p)) = true
      · rw [if_pos hsup, if_pos hsup]
        simp only [ImageElement.new, ContentElement.new,
          _update_modified_change_history, _add_to_history_eq]
        rw [hh, lastN_lastN_append]
      · rw [if_neg hsup, if_neg hsup, List.append_nil]
        exact hh
    · rw [if_neg henv, if_neg henv, List.append_nil]
      exact hh
  | addIcon code x y size =>
    simp only [step, SlideData.add_icon_element, appendedEntries,
      IconElement.new, ContentElement.new,
      _update_modified_change_history, _add_to_history_eq]
    rw [hh, lastN_lastN_append]
  | addSymbol sym x y size =>
    simp only [step, appendedEntries]
    unfold SlideData.add_symbol_element
    by_cases h1 : SlideData._is_emoji env sym = true
    · simp only [SymbolElement.new, ContentElement.new,
        _update_modified_change_history, _add_to_history_eq]
      rw [if_pos h1, hh, lastN_lastN_append]
    · by_cases h2 : SlideData._is_mathematical_symbol sym = true
      · simp only [SymbolElement.new, ContentElement.new,
          _update_modified_change_history, _add_to_history_eq]
        rw [if_neg h1, if_pos h2, hh, lastN_lastN_append]
      · simp only [SymbolElement.new, ContentElement.new,
          _update_modified_change_history, _add_to_history_eq]
        rw [if_neg h1, if_neg h2, hh, lastN_lastN_append]
  | removeElement eid =>
    simp only [step, appendedEntries]
    unfold SlideData.remove_element
    cases hget : dictGet st.slide.elements eid with
    | none =>
      simp only [List.append_nil]
      exact hh
    | some e =>
      simp only [_update_modified_change_history, _add_to_history_eq]
      rw [hh, lastN_lastN_append]
  | updateElement eid u =>
    simp only [step, appendedEntries]
    unfold SlideData.update_element
    cases hget : dictGet st.slide.elements eid with
    | none =>
      simp only [List.append_nil]
      exact hh
    | some e =>
      simp only [_update_modified_change_history, _add_to_history_eq]
      rw [hh, lastN_lastN_append]
  | reorderElement eid z =>
    simp only [step, appendedEntries]
    unfold SlideData.reorder_element
    cases hget : dictGet st.slide.elements eid with
    | none =>
      simp only [List.append_nil]
      exact hh
    | some e =>
      simp only [_update_modified_change_history, _add_to_history_eq]
      rw [hh, lastN_lastN_append]
  | processedVersion =>
    simp only [step, appendedEntries, List.append_nil]
    exact hh
  | statistics =>
    simp only [step, appendedEntries, List.append_nil]
    exact hh
  | elementsByType t =>
    simp only [step, appendedEntries, List.append_nil]
    exact hh
  | allTextContent =>
    simp only [step, appendedEntries, List.append_nil]
    exact hh

theorem run_history (env : Env) (ops : List (DateTime × SlideOp)) :
    ∀ (st : SlideState) (g : List HistoryEntry),
      st.slide.change_history = lastN 100 g →
      (run env st ops).slide.change_history
        = lastN 100 (g ++ runLog env st ops) := by
  induction ops with
  | nil =>
    intro st g h
    simpa [run, runLog] using h
  | cons p rest ih =>
    intro st g h
    obtain ⟨now, op⟩ := p
    simp only [run, runLog]
    rw [ih _ _ (step_history env now st op g h), List.append_assoc]

/-- C7: starting from a freshly constructed slide, after any sequence of
calls the change_history holds at most 100 entries, and it is exactly the
suffix of the 100 most recent entries of the full recorded log, oldest
first (earlier entries having been dropped first). -/
theorem change_history_bounded
    (env : Env) (slide_id : Int) (title background_color : String)
    (now0 : DateTime) (ops : List (DateTime × SlideOp)) :
    ((run env (freshState slide_id title background_color now0)
        ops).slide.change_history).length ≤ 100
    ∧ (run env (freshState slide_id title background_color now0)
        ops).slide.change_history
      = lastN 100
          (runLog env (freshState slide_id title background_color now0)
            ops) := by
  have h := run_history env ops
    (freshState slide_id title background_color now0) [] rfl
  rw [List.nil_append] at h
  exact ⟨by rw [h]; exact length_lastN_le _ _, h⟩

/-! ### Reordering is a stable sort (claim C8) -/

theorem find_map_replace (d : List (String × α)) (k : String) (v : α)
    (h : (d.any fun p => p.1 == k) = true) :
    dictGet (d.map (fun p => if p.1 == k then (k, v) else p)) k = some v := by
  induction d with
  | nil => simp at h
  | cons p t ih =>
    cases hp : (p.1 == k) with
    | true => simp [dictGet, List.find?, hp]
    | false =>
      simp only [List.any_cons, hp, Bool.false_or] at h
      have hhead : (if p.1 == k then (k, v) else p) = p :=
        if_neg (by simp [hp])
      simp only [List.map_cons, hhead]
      simp only [dictGet, List.find?, hp] at ih ⊢
      exact ih h

theorem dictGet_append_single (d : List (String × α)) (k : String) (v : α)
    (h : (d.any fun p => p.1 == k) = false) :
    dictGet (d ++ [(k, v)]) k = some v := by
  induction d with
  | nil => simp [dictGet, List.find?]
  | cons p t ih =>
    cases hp : (p.1 == k) with
    | true => simp [List.any_cons, hp] at h
    | false =>
      simp only [List.any_cons, hp, Bool.false_or] at h
      simp only [List.cons_append]
      simp only [dictGet, List.find?, hp] at ih ⊢
      exact ih h

theorem dictGet_dictSet_self (d : List (String × α)) (k : String) (v : α) :
    dictGet (dictSet d k v) k = some v := by
  unfold dictSet
  by_cases h : (d.any fun p => p.1 == k) = true
  · rw [if_pos h]
    exact find_map_replace d k v h
  · rw [if_neg h]
    have hf : (d.any fun p => p.1 == k) = false := by
      cases hb : (d.any fun p => p.1 == k) with
      | false => rfl
      | true => exact absurd hb h
    exact dictGet_append_single d k v hf

theorem Element.z_index_setZIndex (e : Element) (z : Int) :
    (e.setZIndex z).z_index = z := by
  cases e <;> rfl

theorem Element.etype_setZIndex (e : Element) (z : Int) :
    (e.setZIndex z).etype = e.etype := by
  cases e <;> rfl

theorem Element.textAttr_setZIndex (e : Element) (z : Int) :
    (e.setZIndex z).textAttr = e.textAttr := by
  cases e <;> rfl

theorem insertByZ_filter (z : String → Int) (x : String) (l : List String)
    (v : Int) :
    (insertByZ z x l).filter (fun e => z e == v)
      = (if z x == v then [x] else [])
        ++ l.filter (fun e => z e == v) := by
  induction l with
  | nil =>
    cases hxv : (z x == v) <;> simp [insertByZ, List.filter, hxv]
  | cons y ys ih =>
    unfold insertByZ
    by_cases hz : z y < z x
    · rw [if_pos hz]
      by_cases hxv : (z x == v) = true
      · have hyv : (z y == v) = false := by
          cases hyvc : (z y == v) with
          | false => rfl
          | true =>
            exfalso
            have h1 := eq_of_beq hyvc
            have h2 := eq_of_beq hxv
            omega
        simp [List.filter_cons, hyv, hxv, ih]
      · have hxvf : (z x == v) = false := by simpa using hxv
        simp [List.filter_cons, hxvf, ih]
    · rw [if_neg hz]
      by_cases hxv : (z x == v) = true
      · simp [List.filter_cons, hxv]
      · have hxvf : (z x == v) = false := by simpa using hxv
        simp [List.filter_cons, hxvf]

theorem sortByZ_filter_eq (z : String → Int) (l : List String) (v : Int) :
    (sortByZ z l).filter (fun e => z e == v)
      = l.filter (fun e => z e == v) := by
  induction l with
  | nil => rfl
  | cons x xs ih =>
    unfold sortByZ
    rw [insertByZ_filter, ih, List.filter_cons]
    by_cases hxv : (z x == v) = true
    · simp [hxv]
    · have hxvf : (z x == v) = false := by simpa using hxv
      simp [hxvf]

/-- C8 (amended): reorder_element on a known id sets that element's z-index
to the new value and stably re-sorts element_order by ascending z-index: the
resulting order is the stable sort of the previous order, it is sorted by
the updated z-indices, for every z value the subsequence of ids carrying that
value is unchanged (ties keep their pre-call relative order), and the
reordered element ends up after every id with strictly smaller z-index and
before every id with strictly greater z-index. -/
theorem reorder_element_stable_sort (s : SlideData) (now : DateTime)
    (element_id : String) (new_z_index : Int)
    (h : dictContains s.elements element_id = true) :
    ((s.reorder_element now element_id new_z_index).1.element_order
        = sortByZ
            (zKey (s.reorder_element now element_id new_z_index).1.elements)
            s.element_order)
    ∧ ((s.reorder_element now element_id new_z_index).1.element_order.Pairwise
        (fun a b =>
          zKey (s.reorder_element now element_id new_z_index).1.elements a
            ≤ zKey (s.reorder_element now element_id new_z_index).1.elements
                b))
    ∧ (∀ v : Int,
        (s.reorder_element now element_id new_z_index).1.element_order.filter
            (fun i =>
              zKey (s.reorder_element now element_id new_z_index).1.elements
                i == v)
          = s.element_order.filter
              (fun i =>
                zKey (s.reorder_element now element_id
                  new_z_index).1.elements i == v))
    ∧ zKey (s.reorder_element now element_id new_z_index).1.elements
        element_id = new_z_index
    ∧ (∀ l1 l2,
        (s.reorder_element now element_id new_z_index).1.element_order
          = l1 ++ element_id :: l2 →
        (∀ a ∈ l1,
          zKey (s.reorder_element now element_id new_z_index).1.elements a
            ≤ new_z_index)
        ∧ (∀ a ∈ l2,
            new_z_index
              ≤ zKey (s.reorder_element now element_id
                  new_z_index).1.elements a)) := by
  obtain ⟨e, hget⟩ := dictContains_some h
  have hel : (s.reorder_element now element_id new_z_index).1.elements
      = dictSet s.elements element_id (e.setZIndex new_z_index) := by
    simp [SlideData.reorder_element, hget]
  have hor : (s.reorder_element now element_id new_z_index).1.element_order
      = sortByZ
          (zKey (dictSet s.elements element_id (e.setZIndex new_z_index)))
          s.element_order := by
    simp [SlideData.reorder_element, hget]
  have hzeid :
      zKey (dictSet s.elements element_id (e.setZIndex new_z_index))
        element_id = new_z_index := by
    unfold zKey
    rw [dictGet_dictSet_self]
    exact Element.z_index_setZIndex e new_z_index
  refine ⟨?_, ?_, ?_, ?_, ?_⟩
  · rw [hor, hel]
  · rw [hor, hel]
    exact sortByZ_sorted _ _
  · intro v
    rw [hor, hel]
    exact sortByZ_filter_eq _ _ v
  · rw [hel]
    exact hzeid
  · intro l1 l2 hsplit
    have hsorted :
        ((s.reorder_element now element_id
          new_z_index).1.element_order).Pairwise
          (fun a b =>
            zKey (dictSet s.elements element_id (e.setZIndex new_z_index)) a
              ≤ zKey (dictSet s.elements element_id (e.setZIndex new_z_index))
                  b) := by
      rw [hor]
      exact sortByZ_sorted _ _
    rw [hsplit] at hsorted
    have hparts := List.pairwise_append.mp hsorted
    constructor
    · intro a ha
      have hle := hparts.2.2 a ha element_id (List.mem_cons_self _ _)
      rw [hel]
      rwa [hzeid] at hle
    · intro a ha
      have hc := List.pairwise_cons.mp hparts.2.1
      have hle := hc.1 a ha
      rw [hel]
      rwa [hzeid] at hle

/-- A three-element slide (ids a, b, e with z-indices 5, 3, 0) used to
instantiate the stable-sort theorem and to refute the position the
specification claims for the reordered element. -/
def reorderCexSlide : SlideData :=
  { SlideData.new 1 "s" "#ffffff" 0 with
      elements :=
        [("a", Element.setZIndex
            (.text (TextElement.new "" "Arial" 16 "a" 0 0 200 50 0)) 5),
         ("b", Element.setZIndex
            (.text (TextElement.new "" "Arial" 16 "b" 0 0 200 50 0)) 3),
         ("e", .text (TextElement.new "" "Arial" 16 "e" 0 0 200 50 0))]
      element_order := ["a", "b", "e"] }

theorem reorder_element_stable_sort_witness :
    dictContains reorderCexSlide.elements "a" = true
    ∧ ((reorderCexSlide.reorder_element 1 "a" 7).1.element_order
        = sortByZ (zKey (reorderCexSlide.reorder_element 1 "a" 7).1.elements)
            reorderCexSlide.element_order) :=
  ⟨by decide,
   (reorder_element_stable_sort reorderCexSlide 1 "a" 7 (by decide)).1⟩

/-- The position asserted by the claim for the reordered element: after the
call it sits immediately after the ids with strictly smaller z-index (its
index equals their count), and no later than any other id whose z-index is
at least the new value. -/
def claimedReorderPosition (s : SlideData) (now : DateTime)
    (element_id : String) (new_z_index : Int) : Prop :=
  List.indexOf element_id
      (s.reorder_element now element_id new_z_index).1.element_order
    = ((s.reorder_element now element_id new_z_index).1.element_order.filter
        (fun i =>
          decide (zKey (s.reorder_element now element_id
            new_z_index).1.elements i < new_z_index))).length
  ∧ ∀ j ∈ (s.reorder_element now element_id new_z_index).1.element_order,
      j ≠ element_id →
      new_z_index
        ≤ zKey (s.reorder_element now element_id new_z_index).1.elements j →
      List.indexOf element_id
          (s.reorder_element now element_id new_z_index).1.element_order
        ≤ List.indexOf j
            (s.reorder_element now element_id new_z_index).1.element_order

/-- C8 (counterexample): on the concrete slide above, reordering e to
z-index 5 while a already carries z-index 5 and precedes e produces the
order [b, a, e] (stable sort), so e is neither immediately after the ids
with strictly smaller z-index nor at/before a, refuting the claimed
position. -/
theorem reorder_element_claim_counterexample :
    ¬ claimedReorderPosition reorderCexSlide 0 "e" 5 := by
  unfold claimedReorderPosition
  decide

/-! ### Text concatenation order (claim C5) -/

theorem map_replace_id (d : List (String × Element)) (k : String)
    (v : Element) (h : dictContains d k = false) :
    d.map (fun p => if p.1 == k then (k, v) else p) = d := by
  induction d with
  | nil => rfl
  | cons p t ih =>
    cases hp : (p.1 == k) with
    | true => simp [dictContains, List.any_cons, hp] at h
    | false =>
      simp only [dictContains, List.any_cons, hp, Bool.false_or] at h
      have hhead : (if p.1 == k then (k, v) else p) = p :=
        if_neg (by simp [hp])
      rw [List.map_cons, hhead, ih h]

theorem dictSet_eq_map_of_contains (d : List (String × α)) (k : String)
    (v : α) (h : dictContains d k = true) :
    dictSet d k v = d.map (fun p => if p.1 == k then (k, v) else p) := by
  simp only [dictContains] at h
  simp [dictSet, h]

theorem filtered_texts_replace (d : List (String × Element)) (k : String)
    (e enew : Element) (t : String)
    (hnd : (dictKeys d).Nodup) (hget : dictGet d k = some e)
    (hty : enew.etype = e.etype) (htx : enew.textAttr = e.textAttr) :
    ((d.map (fun p => if p.1 == k then (k, enew) else p)).filter
        (fun p => p.2.etype == t)).map (fun p => p.2.textAttr)
      = (d.filter (fun p => p.2.etype == t)).map (fun p => p.2.textAttr) := by
  induction d with
  | nil => rfl
  | cons p d' ih =>
    have hnd' : (dictKeys d').Nodup := (List.nodup_cons.mp hnd).2
    cases hp : (p.1 == k) with
    | true =>
      have hpk : p.1 = k := eq_of_beq hp
      have he : e = p.2 := by
        simp only [dictGet, List.find?, hp, Option.map_some'] at hget
        exact (Option.some.inj hget).symm
      have hd' : dictContains d' k = false := by
        cases hc : dictContains d' k with
        | false => rfl
        | true =>
          exfalso
          have hmem := dictContains_iff_mem.mp hc
          refine (List.nodup_cons.mp hnd).1 ?_
          show p.1 ∈ dictKeys d'
          rw [hpk]
          exact hmem
      rw [List.map_cons, map_replace_id d' k enew hd',
        show (if p.1 == k then (k, enew) else p) = (k, enew) from if_pos hp]
      by_cases hc2 : (p.2.etype == t) = true
      · have hc1 : ((k, enew).2.etype == t) = true := by
          show (enew.etype == t) = true
          rw [hty, he]
          exact hc2
        rw [List.filter_cons, List.filter_cons, if_pos hc1, if_pos hc2,
          List.map_cons, List.map_cons]
        congr 1
        show enew.textAttr = p.2.textAttr
        rw [htx, he]
      · have hc1 : ¬((k, enew).2.etype == t) = true := by
          show ¬(enew.etype == t) = true
          rw [hty, he]
          exact hc2
        rw [List.filter_cons, List.filter_cons, if_neg hc1, if_neg hc2]
    | false =>
      have hget' : dictGet d' k = some e := by
        simp only [dictGet, List.find?, hp] at hget ⊢
        exact hget
      have hhead : (if p.1 == k then (k, enew) else p) = p :=
        if_neg (by simp [hp])
      rw [List.map_cons, hhead]
      by_cases hc2 : (p.2.etype == t) = true
      · rw [List.filter_cons, List.filter_cons, if_pos hc2, if_pos hc2,
          List.map_cons, List.map_cons, ih hnd' hget']
      · rw [List.filter_cons, List.filter_cons, if_neg hc2, if_neg hc2]
        exact ih hnd' hget'

/-- The two-text slide state obtained by adding the texts A and B and then
reordering the first to z-index 5: element_order becomes the B-id followed
by the A-id while the dict insertion order of elements stays A then B. -/
def textOrderState : SlideState :=
  run env0 (freshState 1 "s" "#ffffff" 0)
    [(1, .addText "A" 0 0 200 50), (2, .addText "B" 0 50 200 50),
     (3, .reorderElement (uuidStr 0) 5)]

/-- Modelled from the spec: the newline-join of the text elements' literal
content taken in element_order, the order the claim asserts for
get_all_text_content. -/
def textContentInElementOrder (s : SlideData) : String :=
  String.intercalate "\n"
    (s.element_order.filterMap (fun eid =>
      match dictGet s.elements eid with
      | some e => if e.etype == "text" then some e.textAttr else none
      | none => none))

/-- C5 (counterexample): after two text adds and a reorder, the source joins
the texts in dict insertion order (A then B) while the element_order join
required by the claim yields B then A, so the claim fails on this slide. -/
theorem get_all_text_content_claim_counterexample :
    textOrderState.slide.get_all_text_content = "A\nB"
    ∧ textContentInElementOrder textOrderState.slide = "B\nA"
    ∧ textOrderState.slide.get_all_text_content
        ≠ textContentInElementOrder textOrderState.slide := by
  refine ⟨by decide, by decide, by decide⟩

/-- C5 (amended): get_all_text_content returns the text elements' literal
content joined by single newlines in the insertion order of the elements
mapping, and the result is invariant under reorder_element, which permutes
element_order only (so the concatenation does not follow element_order). -/
theorem get_all_text_content_insertion_order :
    (∀ s : SlideData,
      s.get_all_text_content
        = String.intercalate "\n"
            ((s.elements.filter (fun p => p.2.etype == "text")).map
              (fun p => p.2.textAttr)))
  ∧ (∀ (s : SlideData) (now : DateTime) (element_id : String)
      (new_z_index : Int), (dictKeys s.elements).Nodup →
      (s.reorder_element now element_id
          new_z_index).1.get_all_text_content
        = s.get_all_text_content) := by
  constructor
  · intro s
    rfl
  · intro s now eid z hnd
    cases hget : dictGet s.elements eid with
    | none =>
      have hsame : (s.reorder_element now eid z).1 = s := by
        simp [SlideData.reorder_element, hget]
      rw [hsame]
    | some e =>
      have hel : (s.reorder_element now eid z).1.elements
          = dictSet s.elements eid (e.setZIndex z) := by
        simp [SlideData.reorder_element, hget]
      show String.intercalate "\n"
          (((s.reorder_element now eid z).1.elements.filter
            (fun p => p.2.etype == "text")).map (fun p => p.2.textAttr))
        = String.intercalate "\n"
            ((s.elements.filter (fun p => p.2.etype == "text")).map
              (fun p => p.2.textAttr))
      apply congrArg
      rw [hel, dictSet_eq_map_of_contains _ _ _ (dictGet_some_contains hget)]
      exact filtered_texts_replace s.elements eid e (e.setZIndex z) "text"
        hnd hget (Element.etype_setZIndex e z) (Element.textAttr_setZIndex e z)

theorem get_all_text_content_insertion_order_witness :
    (dictKeys textOrderState.slide.elements).Nodup
    ∧ (textOrderState.slide.reorder_element 9 (uuidStr 1)
        9).1.get_all_text_content
      = textOrderState.slide.get_all_text_content :=
  ⟨by decide,
   get_all_text_content_insertion_order.2 textOrderState.slide 9 (uuidStr 1)
     9 (by decide)⟩

end Content
